import Mathlib

/-!
# Verification of the WelcomeSign JS client's request/refresh engine

Shallow embedding of `src/welcomesign.js` — the authenticated request
dispatcher (`_request`), the single-flight refresh coordinator
(`_refreshAccessToken`), and the token-lifecycle operations built on them
(`register`, `login`, `logout`, `getDeviceInfo`, `clearTokens`, `setTokens`,
`registerDevice`).

The embedding is sequential-first: one logical call is a function from a
client state and a network oracle (the list of fetch results the server
produces, consumed in order) to a result, a new state, and a trace of
observable events (fetches issued, callbacks invoked, storage removals,
page reloads).  A separate small-step interleaving model covers the
concurrency claims about the refresh coordinator.
-/

namespace WelcomeSign

/-- JSON values as delivered by `response.json()` and built for request
bodies.  Object field order is the wire order; lookup takes the first
match. -/
inductive JsonValue where
  | null
  | bool (b : Bool)
  | num (n : Int)
  | str (s : String)
  | arr (elems : List JsonValue)
  | obj (fields : List (String × JsonValue))
  deriving Repr

/-- JS property access `v[k]`: `some` when the key is present (even with a
`null` value — JS distinguishes `null` from `undefined`, and
`data.data !== undefined` treats a present-null as defined); `none` models
`undefined` (key absent, or receiver not an object). -/
def JsonValue.get? : JsonValue → String → Option JsonValue
  | .obj fields, k => fields.lookup k
  | _, _ => none

/-- JS truthiness of a JSON value (`undefined` is handled at `Option`
level by `truthyOpt`). -/
def jsonTruthy : JsonValue → Bool
  | .null => false
  | .bool b => b
  | .num n => n != 0
  | .str s => s != ""
  | .arr _ => true
  | .obj _ => true

/-- Truthiness of a possibly-undefined value (`none` = `undefined`/absent). -/
def truthyOpt : Option JsonValue → Bool
  | some v => jsonTruthy v
  | none => false

/-- JS string coercion as used by template literals (only the `str` case is
exercised by the repository's token values). -/
def jsonToStr : JsonValue → String
  | .null => "null"
  | .bool b => if b then "true" else "false"
  | .num n => toString n
  | .str s => s
  | .arr elems => String.intercalate "," (elems.attach.map (fun e => jsonToStr e.1))
  | .obj _ => "[object Object]"
decreasing_by
  have h := List.sizeOf_lt_of_mem e.2
  simp only [JsonValue.arr.sizeOf_spec]
  omega

/-- The client instance's fields (constructor, lines 39-55).  Callback and
environment collaborators are abstracted to presence flags; the traces
record the invocations. -/
structure ClientState where
  baseURL : String
  token : Option JsonValue
  refreshToken : Option JsonValue
  deviceToken : Option JsonValue
  hasOnTokenRefresh : Bool
  hasOnAuthError : Bool
  hasOnDeviceSessionInvalid : Bool
  hasStorage : Bool
  hasLocalStorage : Bool
  hasSessionStorage : Bool
  hasWindow : Bool
  storageKey : String
  isRefreshing : Bool
  deriving Repr

/-- A request descriptor (the `options` argument of `_request`).  `auth`
models `options.auth !== false` (absent = `true`); `headers` is `some`
exactly when the caller supplies an own `headers` property. -/
structure RequestOptions where
  method : Option String := none
  headers : Option (List (String × String)) := none
  body : Option JsonValue := none
  auth : Bool := true
  useDeviceToken : Bool := false
  skipTokenRefresh : Bool := false
  deriving Repr

/-- One network interaction as the environment resolves it: either the
fetch resolved and `response.json()` decoded (`ok status body`), or the
fetch or the JSON decode threw (`transportError`). -/
inductive FetchResult where
  | ok (status : Nat) (body : JsonValue)
  | transportError
  deriving Repr

/-- Errors raised by `_request`: a classified API error carrying
`message`/`status`/`data` (lines 101-104), a transport/decode failure
(no `status` property), or the sequential-model artefact of awaiting a
refresh promise opened by another task (`pendingRefresh`) — unreachable
from a quiescent state and excluded by the concurrency model, which
resolves such promises explicitly. -/
inductive ApiError where
  | api (message : JsonValue) (status : Nat) (body : JsonValue)
  | transport
  | pendingRefresh
  deriving Repr

/-- `error.status` as read by the catch blocks (`undefined` for transport
errors). -/
def ApiError.statusOf : ApiError → Option Nat
  | .api _ s _ => some s
  | _ => none

/-- Observable events of a run, in occurrence order.  `tokensCleared`
marks the point where `clearTokens` nulls the three credential fields, so
that ordering relative to notifications is specifiable. -/
inductive Event where
  | fetchEv (endpoint : String) (method : String)
      (headers : List (String × String)) (body : Option JsonValue)
      (skipTokenRefresh : Bool)
  | tokenRefreshCb (token : Option JsonValue) (refreshTok : Option JsonValue)
      (expiresAt : Option JsonValue)
  | authErrorCb (status : Option Nat)
  | tokensCleared
  | storageRemove (backend : String) (key : String)
  | deviceSessionInvalidCb
  | pageReload
  deriving Repr

/-- Result of running one logical operation sequentially: the value
returned or error thrown, the client state afterwards, the event trace,
and the unconsumed remainder of the network oracle. -/
structure RunResult where
  result : Except ApiError JsonValue
  state : ClientState
  events : List Event
  rest : List FetchResult
  deriving Repr

/-- JS object-literal update: overwrite the key if present, else append. -/
def setHeader (hs : List (String × String)) (k v : String) : List (String × String) :=
  if hs.any (fun p => p.1 == k) then
    hs.map (fun p => if p.1 == k then (k, v) else p)
  else hs ++ [(k, v)]

/-- Lines 63-73: the `headers` object — `Content-Type` default, the
descriptor's own headers spread over it, then the Authorization bearer
credential (device token first, else access token when `auth !== false`). -/
def builtHeaders (st : ClientState) (opts : RequestOptions) : List (String × String) :=
  let base := (opts.headers.getD []).foldl (fun acc p => setHeader acc p.1 p.2)
    [("Content-Type", "application/json")]
  if opts.useDeviceToken && truthyOpt st.deviceToken then
    setHeader base "Authorization" ("Bearer " ++ jsonToStr ((st.deviceToken).getD .null))
  else if opts.auth && truthyOpt st.token then
    setHeader base "Authorization" ("Bearer " ++ jsonToStr ((st.token).getD .null))
  else base

/-- Lines 75-79: `config = { method: …, headers, ...options }`.  The
`...options` spread comes last, so a descriptor that carries its own
`headers` property overwrites the built headers (credential included)
with the raw descriptor headers. -/
def configHeaders (st : ClientState) (opts : RequestOptions) : List (String × String) :=
  match opts.headers with
  | some hs => hs
  | none => builtHeaders st opts

/-- `response.ok`: status in the 2xx range. -/
def okStatus (s : Nat) : Bool := decide (200 ≤ s) && decide (s < 300)

/-- Line 91: `data.data !== undefined ? data.data : data`. -/
def unwrapData (body : JsonValue) : JsonValue :=
  match body.get? "data" with
  | some v => v
  | none => body

/-- Line 101: `data.message || data.error || 'API request failed'` with JS
falsiness (absent key = `undefined` = falsy). -/
def errMessage (body : JsonValue) : JsonValue :=
  let m := (body.get? "message").getD .null
  if jsonTruthy m then m else
    let e := (body.get? "error").getD .null
    if jsonTruthy e then e else .str "API request failed"

mutual

/-- Shallow embedding of `_request` (lines 61-111).  One fetch is issued
(event recorded with the effective config headers); a 2xx body is
unwrapped; a 401 with a truthy refresh token and no `skipTokenRefresh`
awaits the refresh coordinator and then re-issues the identical request
with `skipTokenRefresh: true` — and, because line 97 is `return
this._request(...)` without `await`, the retry's rejection bypasses the
outer catch; any other non-2xx raises a classified error; the catch block
invokes the auth-error callback for errors whose `status` is 401. -/
def request (st : ClientState) (endpoint : String) (opts : RequestOptions)
    (net : List FetchResult) : RunResult :=
  let ev : Event := .fetchEv endpoint (opts.method.getD "GET") (configHeaders st opts)
    opts.body opts.skipTokenRefresh
  match net with
  | [] => ⟨.error .transport, st, [ev], []⟩
  | .transportError :: rest => ⟨.error .transport, st, [ev], rest⟩
  | .ok status body :: rest =>
    if okStatus status then
      ⟨.ok (unwrapData body), st, [ev], rest⟩
    else if _hb : status == 401 && truthyOpt st.refreshToken && !opts.skipTokenRefresh then
      let rr := refreshAccessToken st rest
      match rr.result with
      | .ok _ =>
        let r2 := request rr.state endpoint { opts with skipTokenRefresh := true } rr.rest
        ⟨r2.result, r2.state, ev :: (rr.events ++ r2.events), r2.rest⟩
      | .error e =>
        let cbs := if e.statusOf == some 401 && rr.state.hasOnAuthError then
          [Event.authErrorCb e.statusOf] else []
        ⟨.error e, rr.state, ev :: (rr.events ++ cbs), rr.rest⟩
    else
      let e := ApiError.api (errMessage body) status body
      let cbs := if status == 401 && st.hasOnAuthError then
        [Event.authErrorCb (some status)] else []
      ⟨.error e, st, ev :: cbs, rest⟩
termination_by (if opts.skipTokenRefresh then 0 else 2)
decreasing_by
  all_goals
    simp only [Bool.and_eq_true, Bool.not_eq_true'] at _hb
    simp [_hb.2]

/-- Shallow embedding of `_refreshAccessToken` (lines 117-152).  When no
refresh is in flight it sets the in-progress flag, issues the
unauthenticated, refresh-exempt `POST /auth/refresh` carrying the current
refresh token, on success replaces both tokens from the response and
fires the token-refresh callback, and in all cases (the `finally`)
clears the in-progress flag.  The `isRefreshing = true` entry returns the
pending promise; sequentially that promise has no resolution, which the
`pendingRefresh` artefact marks (the concurrency model below gives that
branch its real semantics). -/
def refreshAccessToken (st : ClientState) (net : List FetchResult) : RunResult :=
  if st.isRefreshing then
    ⟨.error .pendingRefresh, st, [], net⟩
  else
    let st1 := { st with isRefreshing := true }
    let inner := request st1 "/auth/refresh"
      { method := some "POST",
        body := some (.obj [("refresh_token", (st.refreshToken).getD .null)]),
        auth := false, skipTokenRefresh := true } net
    match inner.result with
    | .ok d =>
      let st2 := { inner.state with
        token := d.get? "token",
        refreshToken := d.get? "refresh_token",
        isRefreshing := false }
      let cb := if st2.hasOnTokenRefresh then
        [Event.tokenRefreshCb (d.get? "token") (d.get? "refresh_token")
          (d.get? "expires_at")] else []
      ⟨.ok d, st2, inner.events ++ cb, inner.rest⟩
    | .error e =>
      ⟨.error e, { inner.state with isRefreshing := false }, inner.events, inner.rest⟩
termination_by 1
decreasing_by simp_all

end

/-- The request descriptor `_refreshAccessToken` passes to `_request`
(lines 126-131): unauthenticated, refresh-exempt, carrying the current
refresh token. -/
def refreshCallOptions (st : ClientState) : RequestOptions :=
  { method := some "POST",
    body := some (.obj [("refresh_token", (st.refreshToken).getD .null)]),
    auth := false, skipTokenRefresh := true }

/-- The tail of `_request` for a descriptor whose `skipTokenRefresh` is
set, from the point the network result is in: a 2xx body is unwrapped;
a transport/decode failure is rethrown as-is; any other status raises the
classified error, with the auth-error callback fired when the status is
401 and the callback is registered.  (The 401-refresh branch of line 95
is disabled by `skipTokenRefresh`.) -/
def refreshNetContinuation (st : ClientState) (r : FetchResult) :
    Except ApiError JsonValue × List Event :=
  match r with
  | .transportError => (.error .transport, [])
  | .ok status body =>
    if okStatus status then (.ok (unwrapData body), [])
    else
      (.error (ApiError.api (errMessage body) status body),
       if status == 401 && st.hasOnAuthError then [Event.authErrorCb (some status)] else [])

/-!
## Interleaving model of the refresh coordinator

`_refreshAccessToken` is the one place where concurrently suspended tasks
share mutable state (`isRefreshing`, `refreshPromise`, the token pair).
JavaScript's event loop runs each continuation synchronously between
suspension points, so the atomic steps are:

* `enter i` — caller `i`'s 401 continuation invokes `_refreshAccessToken`:
  if a refresh is in flight it receives the pending promise and awaits it;
  otherwise it sets `isRefreshing`, creates the shared promise, and the
  async body runs synchronously up to `await fetch`, issuing the refresh
  network call (hence the fetch event belongs to this step);
* `resolve p` — promise `p`'s network result arrives and the refresh body
  runs to completion: response handling, token replacement and the
  token-refresh callback on success, and the `finally` that clears
  `isRefreshing` and `refreshPromise`;
* `observe i` — caller `i`, awaiting a settled promise, resumes with its
  outcome.

The network oracle maps each refresh call (by promise index) to its
result. -/

/-- A caller that reached `_refreshAccessToken`: not yet entered, awaiting
promise `p`, or resumed with the shared outcome. -/
inductive CallerSt where
  | ready
  | waiting (p : Nat)
  | done (o : Except ApiError JsonValue)

def CallerSt.isDone : CallerSt → Bool
  | .done _ => true
  | _ => false

/-- The shared system state: the client instance, the `refreshPromise`
slot (by promise index), the promise store (`none` = pending), the
callers, and the global event trace. -/
structure CSys where
  cs : ClientState
  refreshPromise : Option Nat
  promises : List (Option (Except ApiError JsonValue))
  callers : List CallerSt
  events : List Event

/-- The fetch event of a refresh network call issued from client state
`st` (matches the event the sequential embedding records for the inner
`_request` of `_refreshAccessToken`). -/
def refreshFetchEvent (st : ClientState) : Event :=
  .fetchEv "/auth/refresh" "POST" (configHeaders st (refreshCallOptions st))
    (some (.obj [("refresh_token", (st.refreshToken).getD .null)])) true

/-- Lines 119-124: a caller enters `_refreshAccessToken`.  With a refresh
in flight it is handed the pending promise; otherwise it flips
`isRefreshing`, installs a fresh pending promise, and the refresh body
issues its network call.  (The `isRefreshing`-with-no-promise arm models
`await null`; the reachability invariant proved below keeps it dead.) -/
def enterStep (s : CSys) (i : Nat) : CSys :=
  match s.callers.get? i with
  | some .ready =>
    if s.cs.isRefreshing then
      match s.refreshPromise with
      | some p => { s with callers := s.callers.set i (.waiting p) }
      | none => { s with callers := s.callers.set i (.done (.ok .null)) }
    else
      let p := s.promises.length
      { s with cs := { s.cs with isRefreshing := true },
               refreshPromise := some p,
               promises := s.promises ++ [none],
               callers := s.callers.set i (.waiting p),
               events := s.events ++ [refreshFetchEvent s.cs] }
  | _ => s

/-- Lines 125-148: promise `p`'s network result `r` arrives and the
refresh body completes: on success both tokens are replaced from the
response and the token-refresh callback fires; on failure the tokens are
untouched; the `finally` clears `isRefreshing` and `refreshPromise`; the
promise settles with the outcome every awaiting caller will observe. -/
def resolveStep (s : CSys) (p : Nat) (r : FetchResult) : CSys :=
  match s.promises.get? p with
  | some none =>
    let out := refreshNetContinuation s.cs r
    match out.1 with
    | .ok d =>
      let cs2 : ClientState := { s.cs with
        token := d.get? "token",
        refreshToken := d.get? "refresh_token" }
      let cb := if cs2.hasOnTokenRefresh then
        [Event.tokenRefreshCb (d.get? "token") (d.get? "refresh_token")
          (d.get? "expires_at")] else []
      { s with cs := { cs2 with isRefreshing := false },
               refreshPromise := none,
               promises := s.promises.set p (some (.ok d)),
               events := s.events ++ out.2 ++ cb }
    | .error e =>
      { s with cs := { s.cs with isRefreshing := false },
               refreshPromise := none,
               promises := s.promises.set p (some (.error e)),
               events := s.events ++ out.2 }
  | _ => s

/-- A caller awaiting a settled promise resumes with its outcome. -/
def observeStep (s : CSys) (i : Nat) : CSys :=
  match s.callers.get? i with
  | some (.waiting p) =>
    match s.promises.get? p with
    | some (some o) => { s with callers := s.callers.set i (.done o) }
    | _ => s
  | _ => s

inductive CStep where
  | enter (i : Nat)
  | resolve (p : Nat)
  | observe (i : Nat)

def CStep.isEnter : CStep → Bool
  | .enter _ => true
  | _ => false

def CStep.isResolve : CStep → Bool
  | .resolve _ => true
  | _ => false

/-- One scheduler step; steps whose task is not enabled leave the system
unchanged. -/
def cstep (net : Nat → FetchResult) (s : CSys) : CStep → CSys
  | .enter i => enterStep s i
  | .resolve p => resolveStep s p (net p)
  | .observe i => observeStep s i

/-- Run a schedule. -/
def crun (net : Nat → FetchResult) (s : CSys) (sched : List CStep) : CSys :=
  sched.foldl (cstep net) s

/-- `n` concurrently suspended calls have each observed their 401 and are
about to enter `_refreshAccessToken`; the client is quiescent. -/
def initSys (cs : ClientState) (n : Nat) : CSys :=
  ⟨cs, none, [], List.replicate n .ready, []⟩

/-- A schedule in which every entry into `_refreshAccessToken` happens
while the refresh (if any) is still pending: no `enter` occurs after a
`resolve`. -/
def entersPrecedeResolves (sched : List CStep) : Bool :=
  (sched.dropWhile (fun c => !c.isResolve)).all (fun c => !c.isEnter)

/-- Number of refresh network calls recorded in a trace. -/
def countRefreshCalls (evs : List Event) : Nat :=
  evs.countP (fun e => match e with
    | .fetchEv ep _ _ _ _ => ep == "/auth/refresh"
    | _ => false)

/-- Invariant phase A: no caller has entered yet; client still quiescent,
no promise, no refresh call on the trace. -/
def PhaseA (cs0 : ClientState) (s : CSys) : Prop :=
  s.cs = cs0 ∧ s.refreshPromise = none ∧ s.promises = [] ∧
  (∀ c ∈ s.callers, c = .ready) ∧ countRefreshCalls s.events = 0

/-- Invariant phase B: the first caller opened the single shared refresh
(promise 0, still pending); exactly one refresh call is on the trace;
every caller is still to enter or awaits promise 0. -/
def PhaseB (cs0 : ClientState) (s : CSys) : Prop :=
  s.cs = { cs0 with isRefreshing := true } ∧ s.refreshPromise = some 0 ∧
  s.promises = [none] ∧
  (∀ c ∈ s.callers, c = .ready ∨ c = .waiting 0) ∧
  countRefreshCalls s.events = 1

/-- The outcome the single refresh settles with, as determined by the
network's answer to the first (and only) refresh call. -/
def refreshOutcome (cs0 : ClientState) (net : Nat → FetchResult) :
    Except ApiError JsonValue :=
  (refreshNetContinuation { cs0 with isRefreshing := true } (net 0)).1

/-- Invariant phase C: the single refresh settled with
`refreshOutcome cs0 net`; flags are reset, tokens replaced exactly on
success, and callers hold nothing but that outcome. -/
def PhaseC (cs0 : ClientState) (net : Nat → FetchResult) (s : CSys) : Prop :=
  s.promises = [some (refreshOutcome cs0 net)] ∧ s.refreshPromise = none ∧
  s.cs.isRefreshing = false ∧
  (∀ c ∈ s.callers, c = .ready ∨ c = .waiting 0 ∨ c = .done (refreshOutcome cs0 net)) ∧
  countRefreshCalls s.events = 1 ∧
  (match refreshOutcome cs0 net with
   | .ok d => s.cs = { cs0 with
       token := JsonValue.get? d "token",
       refreshToken := JsonValue.get? d "refresh_token" }
   | .error _ => s.cs = cs0)

/-- `clearTokens` (lines 304-346): null all three credential fields, then
best-effort removals from the configured storage, `localStorage` and
`sessionStorage`.  The `tokensCleared` event marks the field mutation;
the removals follow it, in source order.  Returns the new state and the
events. -/
def clearTokens (st : ClientState) : ClientState × List Event :=
  let evs : List Event :=
    [Event.tokensCleared]
    ++ (if st.hasStorage then [Event.storageRemove "storage" st.storageKey] else [])
    ++ (if st.hasLocalStorage then
          [Event.storageRemove "localStorage"
            (if st.storageKey == "" then "welcomesign_tokens" else st.storageKey),
           Event.storageRemove "localStorage" "welcomesign_device_id",
           Event.storageRemove "localStorage" "welcomesign_device_identifier",
           Event.storageRemove "localStorage" "welcomesign_device_token"] else [])
    ++ (if st.hasSessionStorage then
          [Event.storageRemove "sessionStorage"
            (if st.storageKey == "" then "welcomesign_tokens" else st.storageKey),
           Event.storageRemove "sessionStorage" "welcomesign_device_id",
           Event.storageRemove "sessionStorage" "welcomesign_device_identifier",
           Event.storageRemove "sessionStorage" "welcomesign_device_token"] else [])
  ({ st with token := none, refreshToken := none, deviceToken := none }, evs)

/-- `getDeviceInfo` (lines 812-841): issue `/device/info` with the device
token; on an error whose `status` is 401, clear all tokens, then invoke
`onDeviceSessionInvalid` when registered, else reload the page when a
`window` exists; rethrow the error. -/
def getDeviceInfo (st : ClientState) (net : List FetchResult) : RunResult :=
  let r := request st "/device/info" { useDeviceToken := true } net
  match r.result with
  | .ok v => ⟨.ok v, r.state, r.events, r.rest⟩
  | .error e =>
    if e.statusOf == some 401 then
      let cleared := clearTokens r.state
      let notif : List Event :=
        if cleared.1.hasOnDeviceSessionInvalid then [Event.deviceSessionInvalidCb]
        else if cleared.1.hasWindow then [Event.pageReload]
        else []
      ⟨.error e, cleared.1, r.events ++ cleared.2 ++ notif, r.rest⟩
    else ⟨.error e, r.state, r.events, r.rest⟩

/-- `register` (lines 168-188): unauthenticated `POST /auth/register`; on
success store both tokens from the response and fire the token-refresh
callback. -/
def register (st : ClientState) (userData : JsonValue) (net : List FetchResult) :
    RunResult :=
  let r := request st "/auth/register"
    { method := some "POST", body := some userData, auth := false } net
  match r.result with
  | .ok d =>
    let st2 := { r.state with
      token := d.get? "token",
      refreshToken := d.get? "refresh_token" }
    let cb := if st2.hasOnTokenRefresh then
      [Event.tokenRefreshCb (d.get? "token") (d.get? "refresh_token")
        (d.get? "expires_at")] else []
    ⟨.ok d, st2, r.events ++ cb, r.rest⟩
  | .error _ => r

/-- `login` (lines 196-216): unauthenticated `POST /auth/login`; on success
store both tokens from the response and fire the token-refresh callback. -/
def login (st : ClientState) (email password : String) (net : List FetchResult) :
    RunResult :=
  let r := request st "/auth/login"
    { method := some "POST",
      body := some (.obj [("email", .str email), ("password", .str password)]),
      auth := false } net
  match r.result with
  | .ok d =>
    let st2 := { r.state with
      token := d.get? "token",
      refreshToken := d.get? "refresh_token" }
    let cb := if st2.hasOnTokenRefresh then
      [Event.tokenRefreshCb (d.get? "token") (d.get? "refresh_token")
        (d.get? "expires_at")] else []
    ⟨.ok d, st2, r.events ++ cb, r.rest⟩
  | .error _ => r

/-- `logout` (lines 222-232): `POST /auth/logout`; only after the request
resolves are `token` and `refreshToken` set to `null`. -/
def logout (st : ClientState) (net : List FetchResult) : RunResult :=
  let r := request st "/auth/logout" { method := some "POST" } net
  match r.result with
  | .ok v => ⟨.ok v, { r.state with token := none, refreshToken := none }, r.events, r.rest⟩
  | .error _ => r

/-- `setTokens` (lines 284-287). -/
def setTokens (st : ClientState) (token refreshTok : Option JsonValue) : ClientState :=
  { st with token := token, refreshToken := refreshTok }

/-- `getTokens` (lines 293-299). -/
def getTokens (st : ClientState) : Option JsonValue × Option JsonValue × Option JsonValue :=
  (st.token, st.refreshToken, st.deviceToken)

/-- `setDeviceToken` (lines 864-866). -/
def setDeviceToken (st : ClientState) (deviceTok : Option JsonValue) : ClientState :=
  { st with deviceToken := deviceTok }

/-- `registerDevice` (lines 778-790): `POST /devices/register`; on success,
if the response carries a truthy `device_token`, store it. -/
def registerDevice (st : ClientState) (registrationData : JsonValue)
    (net : List FetchResult) : RunResult :=
  let r := request st "/devices/register"
    { method := some "POST", body := some registrationData } net
  match r.result with
  | .ok d =>
    if truthyOpt (d.get? "device_token") then
      ⟨.ok d, { r.state with deviceToken := d.get? "device_token" }, r.events, r.rest⟩
    else r
  | .error _ => r

/-- All client fields other than `token` and `refreshToken` agree. -/
def sameFrame (a b : ClientState) : Prop :=
  a.baseURL = b.baseURL ∧ a.deviceToken = b.deviceToken ∧
  a.hasOnTokenRefresh = b.hasOnTokenRefresh ∧ a.hasOnAuthError = b.hasOnAuthError ∧
  a.hasOnDeviceSessionInvalid = b.hasOnDeviceSessionInvalid ∧
  a.hasStorage = b.hasStorage ∧ a.hasLocalStorage = b.hasLocalStorage ∧
  a.hasSessionStorage = b.hasSessionStorage ∧ a.hasWindow = b.hasWindow ∧
  a.storageKey = b.storageKey ∧ a.isRefreshing = b.isRefreshing

/-- The access/refresh pair of `post` either is exactly the pair of `pre`,
or was replaced in one step from the `token`/`refresh_token` fields of
the unwrapped body of an actual successful (2xx) response consumed from
the operation's network oracle `net`, or nulled together — never one of
the pair without the other, and never from a payload the server did not
send. -/
def pairCoupled (pre post : ClientState) (net : List FetchResult) : Prop :=
  (post.token = pre.token ∧ post.refreshToken = pre.refreshToken) ∨
  (∃ status body, FetchResult.ok status body ∈ net ∧ okStatus status = true ∧
    post.token = (unwrapData body).get? "token" ∧
    post.refreshToken = (unwrapData body).get? "refresh_token") ∨
  (post.token = none ∧ post.refreshToken = none)

/-- Is a trace event a network fetch? -/
def Event.isFetch : Event → Bool
  | .fetchEv _ _ _ _ _ => true
  | _ => false

/-- Events a bare `_request` dispatch can produce: fetches and the two
dispatcher-level callbacks — never storage removals, credential clears,
session invalidations, or page reloads (those belong to `clearTokens` and
`getDeviceInfo`). -/
def Event.isDispatcherEvent : Event → Bool
  | .fetchEv _ _ _ _ _ => true
  | .tokenRefreshCb _ _ _ => true
  | .authErrorCb _ => true
  | _ => false

/-- Number of fetches (of any endpoint) in a trace. -/
def countFetches (evs : List Event) : Nat := evs.countP Event.isFetch

/-- Number of auth-error callback invocations in a trace. -/
def countAuthErr (evs : List Event) : Nat :=
  evs.countP (fun e => match e with | .authErrorCb _ => true | _ => false)

/-- Number of device-session-invalid callback invocations in a trace. -/
def countSessionInvalid (evs : List Event) : Nat :=
  evs.countP (fun e => match e with | .deviceSessionInvalidCb => true | _ => false)

/-- Number of page reloads in a trace. -/
def countReloads (evs : List Event) : Nat :=
  evs.countP (fun e => match e with | .pageReload => true | _ => false)

/-- Events that notify the embedding application (the three callback
surfaces and the default recovery action). -/
def Event.isNotification : Event → Bool
  | .tokenRefreshCb _ _ _ => true
  | .authErrorCb _ => true
  | .deviceSessionInvalidCb => true
  | .pageReload => true
  | _ => false

/-- Is this the `tokensCleared` marker? -/
def Event.isCleared : Event → Bool
  | .tokensCleared => true
  | _ => false

/-- Every event strictly before the (first) credential-clearing point is
not a notification: i.e. the credentials are nulled before any
notification fires. -/
def clearedBeforeAllNotifications (evs : List Event) : Bool :=
  (evs.takeWhile (fun e => !e.isCleared)).all (fun e => !e.isNotification)

/-- Every device-session-invalid callback and page reload comes after the
(first) credential-clearing point. -/
def clearedBeforeSessionInvalid (evs : List Event) : Bool :=
  (evs.takeWhile (fun e => !e.isCleared)).all
    (fun e => !(match e with
      | .deviceSessionInvalidCb => true
      | .pageReload => true
      | _ => false))

/-! ## Concrete fixtures for witnesses and counterexamples -/

/-- An example client: all callbacks registered, browser environment, no
storage collaborator, holding all three credentials. -/
def exClient : ClientState :=
  { baseURL := "https://api.example.com",
    token := some (.str "T1"), refreshToken := some (.str "R1"),
    deviceToken := some (.str "D1"),
    hasOnTokenRefresh := true, hasOnAuthError := true,
    hasOnDeviceSessionInvalid := true, hasStorage := false,
    hasLocalStorage := false, hasSessionStorage := false, hasWindow := true,
    storageKey := "welcomesign_tokens", isRefreshing := false }

/-- A successful refresh response body. -/
def exRefreshBody : JsonValue :=
  .obj [("token", .str "T2"), ("refresh_token", .str "R2"),
        ("expires_at", .str "2026-01-01T00:00:00Z")]

/-- Refresh-call oracle that always succeeds with `exRefreshBody`. -/
def exNetOk : Nat → FetchResult := fun _ => .ok 200 exRefreshBody

/-- Refresh-call oracle whose refresh endpoint answers 500. -/
def exNetFail : Nat → FetchResult := fun _ => .ok 500 (.obj [("error", .str "boom")])

/-- Two callers enter while the refresh is pending, then it resolves and
both resume. -/
def exSched : List CStep := [.enter 0, .enter 1, .resolve 0, .observe 0, .observe 1]

/-! ## Helper lemmas -/

theorem countRefreshCalls_append (a b : List Event) :
    countRefreshCalls (a ++ b) = countRefreshCalls a + countRefreshCalls b :=
  List.countP_append _ a b

theorem countRefreshCalls_single_refresh (st : ClientState) :
    countRefreshCalls [refreshFetchEvent st] = 1 := by
  simp [countRefreshCalls, refreshFetchEvent, List.countP_cons]

theorem countRefreshCalls_tokenCb (t r x : Option JsonValue) :
    countRefreshCalls [Event.tokenRefreshCb t r x] = 0 := by
  simp [countRefreshCalls, List.countP_cons]

theorem countRefreshCalls_authErr (st : Option Nat) :
    countRefreshCalls [Event.authErrorCb st] = 0 := by
  simp [countRefreshCalls, List.countP_cons]

theorem countRefreshCalls_netCont (st : ClientState) (r : FetchResult) :
    countRefreshCalls (refreshNetContinuation st r).2 = 0 := by
  unfold refreshNetContinuation
  rcases r with ⟨status, body⟩ | _
  · dsimp only
    split
    · rfl
    · split
      · exact countRefreshCalls_authErr _
      · rfl
  · rfl

theorem withIsRefreshingFalse_eq (cs : ClientState) (h : cs.isRefreshing = false) :
    ({ cs with isRefreshing := false } : ClientState) = cs := by
  cases cs
  simp_all

theorem withTokensIsRefreshingFalse_eq (cs : ClientState) (h : cs.isRefreshing = false)
    (x y : Option JsonValue) :
    ({ cs with token := x, refreshToken := y, isRefreshing := false } : ClientState)
      = { cs with token := x, refreshToken := y } := by
  cases cs
  simp_all

/-! ## Phase preservation for the refresh-coordination model -/

theorem enterStep_phaseA (cs0 : ClientState) (h0 : cs0.isRefreshing = false)
    (s : CSys) (i : Nat) (h : PhaseA cs0 s) :
    PhaseA cs0 (enterStep s i) ∨ PhaseB cs0 (enterStep s i) := by
  obtain ⟨hcs, hrp, hpr, hca, hct⟩ := h
  unfold enterStep
  cases hgi : s.callers.get? i with
  | none => exact Or.inl ⟨hcs, hrp, hpr, hca, hct⟩
  | some c =>
    have hc : c = .ready := hca c (List.get?_mem hgi)
    subst hc
    simp only [hgi, hcs, h0, Bool.false_eq_true, if_false, hpr]
    right
    refine ⟨rfl, by simp, by simp, ?_, ?_⟩
    · intro c hmem
      rcases List.mem_or_eq_of_mem_set hmem with hold | hnew
      · exact Or.inl (hca c hold)
      · right; simp [hnew]
    · show countRefreshCalls (s.events ++ [refreshFetchEvent cs0]) = 1
      rw [countRefreshCalls_append, hct, countRefreshCalls_single_refresh]

theorem enterStep_phaseB (cs0 : ClientState) (s : CSys) (i : Nat)
    (h : PhaseB cs0 s) : PhaseB cs0 (enterStep s i) := by
  obtain ⟨hcs, hrp, hpr, hca, hct⟩ := h
  unfold enterStep
  cases hgi : s.callers.get? i with
  | none => exact ⟨hcs, hrp, hpr, hca, hct⟩
  | some c =>
    rcases hca c (List.get?_mem hgi) with hc | hc <;> subst hc
    · have hir : s.cs.isRefreshing = true := by rw [hcs]
      simp only [hgi, hir, if_true, hrp]
      refine ⟨hcs, rfl, hpr, ?_, hct⟩
      intro c hmem
      rcases List.mem_or_eq_of_mem_set hmem with hold | hnew
      · exact hca c hold
      · exact Or.inr hnew
    · simp only [hgi]
      exact ⟨hcs, hrp, hpr, hca, hct⟩

theorem resolveStep_phaseA (cs0 : ClientState) (s : CSys) (p : Nat)
    (r : FetchResult) (h : PhaseA cs0 s) : PhaseA cs0 (resolveStep s p r) := by
  obtain ⟨hcs, hrp, hpr, hca, hct⟩ := h
  unfold resolveStep
  rw [hpr]
  exact ⟨hcs, hrp, hpr, hca, hct⟩

theorem observeStep_phaseA (cs0 : ClientState) (s : CSys) (i : Nat)
    (h : PhaseA cs0 s) : PhaseA cs0 (observeStep s i) := by
  obtain ⟨hcs, hrp, hpr, hca, hct⟩ := h
  unfold observeStep
  cases hgi : s.callers.get? i with
  | none => exact ⟨hcs, hrp, hpr, hca, hct⟩
  | some c =>
    have hc : c = .ready := hca c (List.get?_mem hgi)
    subst hc
    simp only [hgi]
    exact ⟨hcs, hrp, hpr, hca, hct⟩

theorem resolveStep_phaseB (cs0 : ClientState) (h0 : cs0.isRefreshing = false)
    (net : Nat → FetchResult) (s : CSys) (p : Nat) (h : PhaseB cs0 s) :
    PhaseB cs0 (resolveStep s p (net p)) ∨ PhaseC cs0 net (resolveStep s p (net p)) := by
  obtain ⟨hcs, hrp, hpr, hca, hct⟩ := h
  unfold resolveStep
  cases p with
  | succ q =>
    left
    rw [hpr]
    exact ⟨hcs, hrp, hpr, hca, hct⟩
  | zero =>
    right
    rw [hpr, hcs]
    have hca' : ∀ c ∈ s.callers, c = CallerSt.ready ∨ c = CallerSt.waiting 0 ∨
        c = CallerSt.done (refreshOutcome cs0 net) := by
      intro c hmem
      rcases hca c hmem with hc | hc
      · exact Or.inl hc
      · exact Or.inr (Or.inl hc)
    rcases hox : (refreshNetContinuation { cs0 with isRefreshing := true } (net 0)).1
      with e | d
    · have ho : refreshOutcome cs0 net = .error e := by
        rw [refreshOutcome, hox]
      rw [ho] at hca'
      simp only [List.get?, hox]
      unfold PhaseC
      rw [ho]
      refine ⟨rfl, rfl, rfl, hca', ?_, ?_⟩
      · show countRefreshCalls (s.events ++
          (refreshNetContinuation { cs0 with isRefreshing := true } (net 0)).2) = 1
        rw [countRefreshCalls_append, hct, countRefreshCalls_netCont]
      · exact withIsRefreshingFalse_eq cs0 h0
    · have ho : refreshOutcome cs0 net = .ok d := by
        rw [refreshOutcome, hox]
      rw [ho] at hca'
      simp only [List.get?, hox]
      unfold PhaseC
      rw [ho]
      refine ⟨rfl, rfl, rfl, hca', ?_, ?_⟩
      · show countRefreshCalls (s.events ++
            (refreshNetContinuation { cs0 with isRefreshing := true } (net 0)).2 ++
            (if cs0.hasOnTokenRefresh then
              [Event.tokenRefreshCb (JsonValue.get? d "token")
                (JsonValue.get? d "refresh_token") (JsonValue.get? d "expires_at")]
             else [])) = 1
        rw [countRefreshCalls_append, countRefreshCalls_append, hct,
          countRefreshCalls_netCont]
        split
        · rw [countRefreshCalls_tokenCb]
        · rfl
      · exact withTokensIsRefreshingFalse_eq cs0 h0 _ _

theorem resolveStep_phaseC (cs0 : ClientState) (net : Nat → FetchResult)
    (s : CSys) (p : Nat) (h : PhaseC cs0 net s) :
    PhaseC cs0 net (resolveStep s p (net p)) := by
  obtain ⟨hpr, hrp, hir, hca, hct, hcs⟩ := h
  unfold resolveStep
  rw [hpr]
  cases p with
  | zero => exact ⟨hpr, hrp, hir, hca, hct, hcs⟩
  | succ q =>
    simp only [List.get?]
    exact ⟨hpr, hrp, hir, hca, hct, hcs⟩

theorem observeStep_phaseC (cs0 : ClientState) (net : Nat → FetchResult)
    (s : CSys) (i : Nat) (h : PhaseC cs0 net s) :
    PhaseC cs0 net (observeStep s i) := by
  obtain ⟨hpr, hrp, hir, hca, hct, hcs⟩ := h
  unfold observeStep
  cases hgi : s.callers.get? i with
  | none => exact ⟨hpr, hrp, hir, hca, hct, hcs⟩
  | some c =>
    rcases hca c (List.get?_mem hgi) with hc | hc | hc <;> subst hc
    · simp only [hgi]
      exact ⟨hpr, hrp, hir, hca, hct, hcs⟩
    · simp only [hgi, hpr]
      refine ⟨rfl, hrp, hir, ?_, hct, hcs⟩
      intro c hmem
      rcases List.mem_or_eq_of_mem_set hmem with hold | hnew
      · exact hca c hold
      · exact Or.inr (Or.inr hnew)
    · simp only [hgi]
      exact ⟨hpr, hrp, hir, hca, hct, hcs⟩

theorem observeStep_phaseB (cs0 : ClientState) (s : CSys) (i : Nat)
    (h : PhaseB cs0 s) : PhaseB cs0 (observeStep s i) := by
  obtain ⟨hcs, hrp, hpr, hca, hct⟩ := h
  unfold observeStep
  cases hgi : s.callers.get? i with
  | none => exact ⟨hcs, hrp, hpr, hca, hct⟩
  | some c =>
    rcases hca c (List.get?_mem hgi) with hc | hc <;> subst hc
    · simp only [hgi]
      exact ⟨hcs, hrp, hpr, hca, hct⟩
    · simp only [hgi, hpr]
      simp only [List.get?]
      exact ⟨hcs, hrp, hpr, hca, hct⟩

theorem crun_cons (net : Nat → FetchResult) (s : CSys) (c : CStep)
    (rest : List CStep) : crun net s (c :: rest) = crun net (cstep net s c) rest := rfl

theorem crun_append (net : Nat → FetchResult) (s : CSys) (a b : List CStep) :
    crun net s (a ++ b) = crun net (crun net s a) b :=
  List.foldl_append _ _ a b

theorem enterStep_callers_length (s : CSys) (i : Nat) :
    (enterStep s i).callers.length = s.callers.length := by
  unfold enterStep
  repeat' split
  all_goals first | rfl | simp [List.length_set]

theorem resolveStep_callers_length (s : CSys) (p : Nat) (r : FetchResult) :
    (resolveStep s p r).callers.length = s.callers.length := by
  unfold resolveStep
  split
  · dsimp only
    split <;> rfl
  · rfl

theorem observeStep_callers_length (s : CSys) (i : Nat) :
    (observeStep s i).callers.length = s.callers.length := by
  unfold observeStep
  repeat' split
  all_goals first | rfl | simp [List.length_set]

theorem cstep_callers_length (net : Nat → FetchResult) (s : CSys) (c : CStep) :
    (cstep net s c).callers.length = s.callers.length := by
  cases c with
  | enter i => exact enterStep_callers_length s i
  | resolve p => exact resolveStep_callers_length s p (net p)
  | observe i => exact observeStep_callers_length s i

theorem crun_callers_length (net : Nat → FetchResult) (sched : List CStep) (s : CSys) :
    (crun net s sched).callers.length = s.callers.length := by
  induction sched generalizing s with
  | nil => rfl
  | cons c rest ih => rw [crun_cons, ih, cstep_callers_length]

theorem crun_noResolve (cs0 : ClientState) (h0 : cs0.isRefreshing = false)
    (net : Nat → FetchResult) (sched : List CStep) (s : CSys)
    (hs : ∀ c ∈ sched, c.isResolve = false)
    (h : PhaseA cs0 s ∨ PhaseB cs0 s) :
    PhaseA cs0 (crun net s sched) ∨ PhaseB cs0 (crun net s sched) := by
  induction sched generalizing s with
  | nil => exact h
  | cons c rest ih =>
    rw [crun_cons]
    refine ih _ (fun x hx => hs x (List.mem_cons_of_mem _ hx)) ?_
    have hc := hs c (List.mem_cons_self _ _)
    cases c with
    | enter i =>
      rcases h with hA | hB
      · exact enterStep_phaseA cs0 h0 s i hA
      · exact Or.inr (enterStep_phaseB cs0 s i hB)
    | resolve p => simp [CStep.isResolve] at hc
    | observe i =>
      rcases h with hA | hB
      · exact Or.inl (observeStep_phaseA cs0 s i hA)
      · exact Or.inr (observeStep_phaseB cs0 s i hB)

theorem crun_noEnter (cs0 : ClientState) (h0 : cs0.isRefreshing = false)
    (net : Nat → FetchResult) (sched : List CStep) (s : CSys)
    (hs : ∀ c ∈ sched, c.isEnter = false)
    (h : PhaseA cs0 s ∨ PhaseB cs0 s ∨ PhaseC cs0 net s) :
    PhaseA cs0 (crun net s sched) ∨ PhaseB cs0 (crun net s sched) ∨
      PhaseC cs0 net (crun net s sched) := by
  induction sched generalizing s with
  | nil => exact h
  | cons c rest ih =>
    rw [crun_cons]
    refine ih _ (fun x hx => hs x (List.mem_cons_of_mem _ hx)) ?_
    have hc := hs c (List.mem_cons_self _ _)
    cases c with
    | enter i => simp [CStep.isEnter] at hc
    | resolve p =>
      rcases h with hA | hB | hC
      · exact Or.inl (resolveStep_phaseA cs0 s p (net p) hA)
      · rcases resolveStep_phaseB cs0 h0 net s p hB with h' | h'
        · exact Or.inr (Or.inl h')
        · exact Or.inr (Or.inr h')
      · exact Or.inr (Or.inr (resolveStep_phaseC cs0 net s p hC))
    | observe i =>
      rcases h with hA | hB | hC
      · exact Or.inl (observeStep_phaseA cs0 s i hA)
      · exact Or.inr (Or.inl (observeStep_phaseB cs0 s i hB))
      · exact Or.inr (Or.inr (observeStep_phaseC cs0 net s i hC))

theorem crun_phases (cs0 : ClientState) (n : Nat) (net : Nat → FetchResult)
    (sched : List CStep) (h0 : cs0.isRefreshing = false)
    (hpre : entersPrecedeResolves sched = true) :
    PhaseA cs0 (crun net (initSys cs0 n) sched) ∨
    PhaseB cs0 (crun net (initSys cs0 n) sched) ∨
    PhaseC cs0 net (crun net (initSys cs0 n) sched) := by
  have hAB : PhaseA cs0 (crun net (initSys cs0 n)
        (sched.takeWhile fun c => !c.isResolve)) ∨
      PhaseB cs0 (crun net (initSys cs0 n) (sched.takeWhile fun c => !c.isResolve)) := by
    refine crun_noResolve cs0 h0 net _ _ ?_ (Or.inl ?_)
    · intro x hx
      have hq := List.mem_takeWhile_imp hx
      simpa using hq
    · exact ⟨rfl, rfl, rfl, fun c hc => List.eq_of_mem_replicate hc, rfl⟩
  have heq : crun net (initSys cs0 n) sched
      = crun net (crun net (initSys cs0 n) (sched.takeWhile fun c => !c.isResolve))
          (sched.dropWhile fun c => !c.isResolve) := by
    rw [← crun_append, List.takeWhile_append_dropWhile]
  rw [heq]
  refine crun_noEnter cs0 h0 net _ _ ?_ ?_
  · intro x hx
    rw [entersPrecedeResolves, List.all_eq_true] at hpre
    have hq := hpre x hx
    simpa using hq
  · rcases hAB with hA | hB
    · exact Or.inl hA
    · exact Or.inr (Or.inl hB)

/-! ## Unfolding lemmas for the sequential dispatcher -/

theorem request_skip_nil (st : ClientState) (ep : String) (opts : RequestOptions)
    (hskip : opts.skipTokenRefresh = true) :
    request st ep opts [] =
      ⟨.error .transport, st,
       [.fetchEv ep (opts.method.getD "GET") (configHeaders st opts) opts.body true],
       []⟩ := by
  rw [request.eq_def, hskip]

theorem request_skip_cons (st : ClientState) (ep : String) (opts : RequestOptions)
    (r : FetchResult) (rest : List FetchResult)
    (hskip : opts.skipTokenRefresh = true) :
    request st ep opts (r :: rest) =
      ⟨(refreshNetContinuation st r).1, st,
       .fetchEv ep (opts.method.getD "GET") (configHeaders st opts) opts.body true
         :: (refreshNetContinuation st r).2,
       rest⟩ := by
  rw [request.eq_def, hskip]
  rcases r with ⟨status, body⟩ | _
  · unfold refreshNetContinuation
    dsimp only
    split
    · rfl
    · simp only [Bool.not_true, Bool.and_false, Bool.false_eq_true, dite_false]
  · rfl

theorem refreshAccessToken_nil (st : ClientState) (h0 : st.isRefreshing = false) :
    refreshAccessToken st [] =
      ⟨.error .transport, st,
       [refreshFetchEvent { st with isRefreshing := true }], []⟩ := by
  rw [refreshAccessToken]
  rw [if_neg (by rw [h0]; exact Bool.false_ne_true)]
  dsimp only
  rw [request_skip_nil _ _ _ rfl]
  dsimp only
  rw [withIsRefreshingFalse_eq st h0]
  rfl

theorem refreshAccessToken_ok (st : ClientState) (h0 : st.isRefreshing = false)
    (r : FetchResult) (rest : List FetchResult) (d : JsonValue)
    (hr : (refreshNetContinuation { st with isRefreshing := true } r).1 = .ok d) :
    refreshAccessToken st (r :: rest) =
      ⟨.ok d,
       { st with token := d.get? "token", refreshToken := d.get? "refresh_token" },
       refreshFetchEvent { st with isRefreshing := true }
         :: ((refreshNetContinuation { st with isRefreshing := true } r).2
           ++ (if st.hasOnTokenRefresh then
                [Event.tokenRefreshCb (d.get? "token") (d.get? "refresh_token")
                  (d.get? "expires_at")]
               else [])),
       rest⟩ := by
  rw [refreshAccessToken]
  rw [if_neg (by rw [h0]; exact Bool.false_ne_true)]
  dsimp only
  rw [request_skip_cons _ _ _ _ _ rfl]
  dsimp only
  rw [hr]
  dsimp only
  rw [withTokensIsRefreshingFalse_eq st h0]
  rfl

theorem refreshAccessToken_err (st : ClientState) (h0 : st.isRefreshing = false)
    (r : FetchResult) (rest : List FetchResult) (e : ApiError)
    (hr : (refreshNetContinuation { st with isRefreshing := true } r).1 = .error e) :
    refreshAccessToken st (r :: rest) =
      ⟨.error e, st,
       refreshFetchEvent { st with isRefreshing := true }
         :: (refreshNetContinuation { st with isRefreshing := true } r).2,
       rest⟩ := by
  rw [refreshAccessToken]
  rw [if_neg (by rw [h0]; exact Bool.false_ne_true)]
  dsimp only
  rw [request_skip_cons _ _ _ _ _ rfl]
  dsimp only
  rw [hr]
  dsimp only
  rw [withIsRefreshingFalse_eq st h0]
  rfl

theorem request_nil (st : ClientState) (ep : String) (opts : RequestOptions) :
    request st ep opts [] =
      ⟨.error .transport, st,
       [.fetchEv ep (opts.method.getD "GET") (configHeaders st opts) opts.body
          opts.skipTokenRefresh], []⟩ := by
  rw [request.eq_def]

theorem request_transport (st : ClientState) (ep : String) (opts : RequestOptions)
    (rest : List FetchResult) :
    request st ep opts (.transportError :: rest) =
      ⟨.error .transport, st,
       [.fetchEv ep (opts.method.getD "GET") (configHeaders st opts) opts.body
          opts.skipTokenRefresh], rest⟩ := by
  rw [request.eq_def]

theorem request_ok_status (st : ClientState) (ep : String) (opts : RequestOptions)
    (status : Nat) (body : JsonValue) (rest : List FetchResult)
    (hok : okStatus status = true) :
    request st ep opts (.ok status body :: rest) =
      ⟨.ok (unwrapData body), st,
       [.fetchEv ep (opts.method.getD "GET") (configHeaders st opts) opts.body
          opts.skipTokenRefresh], rest⟩ := by
  rw [request.eq_def]
  dsimp only
  rw [if_pos hok]

theorem request_no_refresh (st : ClientState) (ep : String) (opts : RequestOptions)
    (status : Nat) (body : JsonValue) (rest : List FetchResult)
    (hok : okStatus status = false)
    (hbr : (status == 401 && truthyOpt st.refreshToken && !opts.skipTokenRefresh) = false) :
    request st ep opts (.ok status body :: rest) =
      ⟨.error (.api (errMessage body) status body), st,
       .fetchEv ep (opts.method.getD "GET") (configHeaders st opts) opts.body
          opts.skipTokenRefresh
         :: (if status == 401 && st.hasOnAuthError then
              [Event.authErrorCb (some status)] else []),
       rest⟩ := by
  rw [request.eq_def]
  dsimp only
  rw [if_neg (by rw [hok]; exact Bool.false_ne_true)]
  rw [dif_neg (by rw [hbr]; exact Bool.false_ne_true)]

theorem request_refresh_ok (st : ClientState) (ep : String) (opts : RequestOptions)
    (b : JsonValue) (tail : List FetchResult) (d : JsonValue)
    (hskip : opts.skipTokenRefresh = false)
    (hrt : truthyOpt st.refreshToken = true)
    (hrr : (refreshAccessToken st tail).result = .ok d) :
    request st ep opts (.ok 401 b :: tail) =
      ⟨(request (refreshAccessToken st tail).state ep
          { opts with skipTokenRefresh := true } (refreshAccessToken st tail).rest).result,
       (request (refreshAccessToken st tail).state ep
          { opts with skipTokenRefresh := true } (refreshAccessToken st tail).rest).state,
       .fetchEv ep (opts.method.getD "GET") (configHeaders st opts) opts.body false
         :: ((refreshAccessToken st tail).events ++
           (request (refreshAccessToken st tail).state ep
              { opts with skipTokenRefresh := true } (refreshAccessToken st tail).rest).events),
       (request (refreshAccessToken st tail).state ep
          { opts with skipTokenRefresh := true } (refreshAccessToken st tail).rest).rest⟩ := by
  rw [request.eq_def]
  dsimp only
  rw [if_neg (by decide)]
  rw [dif_pos (by rw [hrt, hskip]; rfl)]
  rw [hskip]
  rw [hrr]

theorem request_refresh_err (st : ClientState) (ep : String) (opts : RequestOptions)
    (b : JsonValue) (tail : List FetchResult) (e : ApiError)
    (hskip : opts.skipTokenRefresh = false)
    (hrt : truthyOpt st.refreshToken = true)
    (hrr : (refreshAccessToken st tail).result = .error e) :
    request st ep opts (.ok 401 b :: tail) =
      ⟨.error e, (refreshAccessToken st tail).state,
       .fetchEv ep (opts.method.getD "GET") (configHeaders st opts) opts.body false
         :: ((refreshAccessToken st tail).events ++
           (if e.statusOf == some 401 && (refreshAccessToken st tail).state.hasOnAuthError then
             [Event.authErrorCb e.statusOf] else [])),
       (refreshAccessToken st tail).rest⟩ := by
  rw [request.eq_def]
  dsimp only
  rw [if_neg (by decide)]
  rw [dif_pos (by rw [hrt, hskip]; rfl)]
  rw [hskip]
  rw [hrr]

theorem countFetches_netCont (st : ClientState) (r : FetchResult) :
    countFetches (refreshNetContinuation st r).2 = 0 := by
  unfold refreshNetContinuation
  rcases r with ⟨status, body⟩ | _
  · dsimp only
    split
    · rfl
    · split <;> simp [countFetches, List.countP_cons, Event.isFetch]
  · rfl

theorem countAuthErr_netCont (st : ClientState) (r : FetchResult) :
    countAuthErr (refreshNetContinuation st r).2 =
      (if (match r with
           | .ok status _ => !okStatus status && (status == 401) && st.hasOnAuthError
           | .transportError => false) then 1 else 0) := by
  unfold refreshNetContinuation
  rcases r with ⟨status, body⟩ | _
  · dsimp only
    rcases hok : okStatus status
    · simp only [hok, Bool.not_false, Bool.true_and, Bool.false_eq_true, if_false]
      split
      · simp [countAuthErr, List.countP_cons]
      · rfl
    · simp [hok, countAuthErr]
  · rfl

theorem netCont_events_dispatcher (st : ClientState) (r : FetchResult) :
    ((refreshNetContinuation st r).2.all Event.isDispatcherEvent) = true := by
  unfold refreshNetContinuation
  rcases r with ⟨status, body⟩ | _
  · dsimp only
    split
    · rfl
    · split <;> simp [Event.isDispatcherEvent]
  · rfl

theorem request_skip_state (st : ClientState) (ep : String) (opts : RequestOptions)
    (net : List FetchResult) (hskip : opts.skipTokenRefresh = true) :
    (request st ep opts net).state = st := by
  rcases net with _ | ⟨r, rest⟩
  · rw [request_skip_nil _ _ _ hskip]
  · rw [request_skip_cons _ _ _ _ _ hskip]

theorem request_skip_fetches (st : ClientState) (ep : String) (opts : RequestOptions)
    (net : List FetchResult) (hskip : opts.skipTokenRefresh = true) :
    countFetches (request st ep opts net).events = 1 := by
  rcases net with _ | ⟨r, rest⟩
  · rw [request_skip_nil _ _ _ hskip]
    simp [countFetches, List.countP_cons, Event.isFetch]
  · rw [request_skip_cons _ _ _ _ _ hskip]
    show countFetches (_ :: _) = 1
    rw [countFetches, List.countP_cons]
    have h2 := countFetches_netCont st r
    rw [countFetches] at h2
    rw [h2]
    simp [Event.isFetch]

theorem refreshAccessToken_pending (st : ClientState) (net : List FetchResult)
    (h1 : st.isRefreshing = true) :
    refreshAccessToken st net = ⟨.error .pendingRefresh, st, [], net⟩ := by
  rw [refreshAccessToken, if_pos h1]

theorem refreshAccessToken_state_ok (st : ClientState) (net : List FetchResult)
    (d : JsonValue)
    (hres : (refreshAccessToken st net).result = .ok d) :
    (refreshAccessToken st net).state =
      { st with token := d.get? "token", refreshToken := d.get? "refresh_token" } := by
  rcases h0 : st.isRefreshing
  case true =>
    rw [refreshAccessToken_pending st net h0] at hres
    exact absurd hres (by simp)
  rcases net with _ | ⟨r, rest⟩
  · rw [refreshAccessToken_nil st h0] at hres
    exact absurd hres (by simp)
  · rcases hrc : (refreshNetContinuation { st with isRefreshing := true } r).1 with e | d'
    · rw [refreshAccessToken_err st h0 r rest e hrc] at hres
      exact absurd hres (by simp)
    · rw [refreshAccessToken_ok st h0 r rest d' hrc] at hres ⊢
      obtain rfl : d' = d := by simpa using hres
      rw [h0]

theorem refreshAccessToken_state_err (st : ClientState) (net : List FetchResult)
    (e : ApiError)
    (hres : (refreshAccessToken st net).result = .error e) :
    (refreshAccessToken st net).state = st := by
  rcases h0 : st.isRefreshing
  case true => rw [refreshAccessToken_pending st net h0]
  rcases net with _ | ⟨r, rest⟩
  · rw [refreshAccessToken_nil st h0]
  · rcases hrc : (refreshNetContinuation { st with isRefreshing := true } r).1 with e' | d
    · rw [refreshAccessToken_err st h0 r rest e' hrc]
    · rw [refreshAccessToken_ok st h0 r rest d hrc] at hres
      exact absurd hres (by simp)

theorem sameFrame_refl (a : ClientState) : sameFrame a a := by
  simp [sameFrame]

theorem refreshAccessToken_frame (st : ClientState) (net : List FetchResult) :
    sameFrame (refreshAccessToken st net).state st := by
  rcases h0 : st.isRefreshing
  case true =>
    rw [refreshAccessToken_pending st net h0]
    exact sameFrame_refl st
  rcases net with _ | ⟨r, rest⟩
  · rw [refreshAccessToken_nil st h0]
    exact sameFrame_refl st
  · rcases hrc : (refreshNetContinuation { st with isRefreshing := true } r).1 with e | d
    · rw [refreshAccessToken_err st h0 r rest e hrc]
      exact sameFrame_refl st
    · rw [refreshAccessToken_ok st h0 r rest d hrc]
      simp [sameFrame]

theorem netCont_ok_source (st : ClientState) (r : FetchResult) (d : JsonValue)
    (h : (refreshNetContinuation st r).1 = .ok d) :
    ∃ status body, r = FetchResult.ok status body ∧ okStatus status = true ∧
      d = unwrapData body := by
  unfold refreshNetContinuation at h
  rcases r with ⟨s, b⟩ | _
  · dsimp only at h
    rcases hok : okStatus s
    · simp [hok] at h
    · simp [hok] at h
      exact ⟨s, b, rfl, hok, h.symm⟩
  · exact absurd h (by simp)

theorem refreshAccessToken_ok_shape (st : ClientState) (net : List FetchResult)
    (d : JsonValue) (h : (refreshAccessToken st net).result = .ok d) :
    ∃ status body tail, net = FetchResult.ok status body :: tail ∧
      okStatus status = true ∧ d = unwrapData body ∧
      (refreshAccessToken st net).rest = tail := by
  rcases h0 : st.isRefreshing
  case true =>
    rw [refreshAccessToken_pending st net h0] at h
    exact absurd h (by simp)
  rcases net with _ | ⟨r, rest⟩
  · rw [refreshAccessToken_nil st h0] at h
    exact absurd h (by simp)
  · rcases hrc : (refreshNetContinuation { st with isRefreshing := true } r).1 with e | d'
    · rw [refreshAccessToken_err st h0 r rest e hrc] at h
      exact absurd h (by simp)
    · obtain ⟨s, b, rfl, hoks, hd⟩ := netCont_ok_source _ r d' hrc
      rw [refreshAccessToken_ok st h0 _ rest d' hrc] at h
      obtain rfl : d' = d := by simpa using h
      refine ⟨s, b, rest, rfl, hoks, hd, ?_⟩
      rw [refreshAccessToken_ok st h0 _ rest d' hrc]

theorem request_skip_result_ok (st : ClientState) (ep : String)
    (opts : RequestOptions) (net : List FetchResult) (d : JsonValue)
    (hskip : opts.skipTokenRefresh = true)
    (h : (request st ep opts net).result = .ok d) :
    ∃ status body tail, net = FetchResult.ok status body :: tail ∧
      okStatus status = true ∧ d = unwrapData body := by
  rcases net with _ | ⟨r, rest⟩
  · rw [request_skip_nil _ _ _ hskip] at h
    exact absurd h (by simp)
  · rw [request_skip_cons _ _ _ _ _ hskip] at h
    dsimp only at h
    obtain ⟨s, b, rfl, hok, hd⟩ := netCont_ok_source st r d h
    exact ⟨s, b, rest, rfl, hok, hd⟩

theorem request_ok_source (st : ClientState) (ep : String) (opts : RequestOptions)
    (net : List FetchResult) (d : JsonValue)
    (h : (request st ep opts net).result = .ok d) :
    ∃ status body, FetchResult.ok status body ∈ net ∧ okStatus status = true ∧
      d = unwrapData body := by
  rcases net with _ | ⟨r, tail⟩
  · rw [request_nil] at h
    exact absurd h (by simp)
  rcases r with ⟨status, body⟩ | _
  case cons.transportError =>
    rw [request_transport] at h
    exact absurd h (by simp)
  rcases hok : okStatus status
  case cons.ok.true =>
    rw [request_ok_status _ _ _ _ _ _ hok] at h
    obtain rfl : unwrapData body = d := by simpa using h
    exact ⟨status, body, List.mem_cons_self _ _, hok, rfl⟩
  rcases hbr : (status == 401 && truthyOpt st.refreshToken && !opts.skipTokenRefresh)
  case false =>
    rw [request_no_refresh _ _ _ _ _ _ hok hbr] at h
    exact absurd h (by simp)
  simp only [Bool.and_eq_true, beq_iff_eq, Bool.not_eq_true'] at hbr
  obtain ⟨⟨h401, hrt⟩, hskip⟩ := hbr
  subst h401
  rcases hres : (refreshAccessToken st tail).result with e | d'
  · rw [request_refresh_err st ep opts body tail e hskip hrt hres] at h
    exact absurd h (by simp)
  · rw [request_refresh_ok st ep opts body tail d' hskip hrt hres] at h
    dsimp only at h
    obtain ⟨s, b, rest2, rfl, hoks, hd, hrest⟩ :=
      refreshAccessToken_ok_shape st tail d' hres
    rw [hrest] at h
    obtain ⟨s2, b2, rest3, hsh, hok2, hd2⟩ :=
      request_skip_result_ok _ ep { opts with skipTokenRefresh := true } rest2 d rfl h
    subst hsh
    exact ⟨s2, b2, by simp, hok2, hd2⟩

theorem refreshAccessToken_pair (st : ClientState) (net : List FetchResult) :
    pairCoupled st (refreshAccessToken st net).state net := by
  rcases h0 : st.isRefreshing
  case true =>
    rw [refreshAccessToken_pending st net h0]
    exact Or.inl ⟨rfl, rfl⟩
  rcases net with _ | ⟨r, rest⟩
  · rw [refreshAccessToken_nil st h0]
    exact Or.inl ⟨rfl, rfl⟩
  · rcases hrc : (refreshNetContinuation { st with isRefreshing := true } r).1 with e | d
    · rw [refreshAccessToken_err st h0 r rest e hrc]
      exact Or.inl ⟨rfl, rfl⟩
    · obtain ⟨s, b, rfl, hok, hd⟩ := netCont_ok_source _ r d hrc
      rw [refreshAccessToken_ok st h0 _ rest d hrc]
      subst hd
      exact Or.inr (Or.inl ⟨s, b, List.mem_cons_self _ _, hok, rfl, rfl⟩)

theorem refreshAccessToken_events_dispatcher (st : ClientState) (net : List FetchResult) :
    ((refreshAccessToken st net).events.all Event.isDispatcherEvent) = true := by
  rcases h0 : st.isRefreshing
  case true => rw [refreshAccessToken_pending st net h0]; rfl
  rcases net with _ | ⟨r, rest⟩
  · rw [refreshAccessToken_nil st h0]
    rfl
  · rcases hrc : (refreshNetContinuation { st with isRefreshing := true } r).1 with e | d
    · rw [refreshAccessToken_err st h0 r rest e hrc]
      simp only [List.all_cons, Bool.and_eq_true]
      exact ⟨rfl, netCont_events_dispatcher _ r⟩
    · rw [refreshAccessToken_ok st h0 r rest d hrc]
      simp only [List.all_cons, List.all_append, Bool.and_eq_true]
      refine ⟨rfl, netCont_events_dispatcher _ r, ?_⟩
      split <;> rfl

theorem request_skip_events_dispatcher (st : ClientState) (ep : String)
    (opts : RequestOptions) (net : List FetchResult)
    (hskip : opts.skipTokenRefresh = true) :
    ((request st ep opts net).events.all Event.isDispatcherEvent) = true := by
  rcases net with _ | ⟨r, rest⟩
  · rw [request_skip_nil _ _ _ hskip]
    rfl
  · rw [request_skip_cons _ _ _ _ _ hskip]
    simp only [List.all_cons, Bool.and_eq_true]
    exact ⟨rfl, netCont_events_dispatcher st r⟩

theorem request_frame (st : ClientState) (ep : String) (opts : RequestOptions)
    (net : List FetchResult) :
    sameFrame (request st ep opts net).state st := by
  rcases net with _ | ⟨r, tail⟩
  · rw [request_nil]
    exact sameFrame_refl st
  rcases r with ⟨status, body⟩ | _
  case cons.transportError =>
    rw [request_transport]
    exact sameFrame_refl st
  rcases hok : okStatus status
  case cons.ok.true =>
    rw [request_ok_status _ _ _ _ _ _ hok]
    exact sameFrame_refl st
  rcases hbr : (status == 401 && truthyOpt st.refreshToken && !opts.skipTokenRefresh)
  case false =>
    rw [request_no_refresh _ _ _ _ _ _ hok hbr]
    exact sameFrame_refl st
  simp only [Bool.and_eq_true, beq_iff_eq, Bool.not_eq_true'] at hbr
  obtain ⟨⟨h401, hrt⟩, hskip⟩ := hbr
  subst h401
  rcases hres : (refreshAccessToken st tail).result with e | d
  · rw [request_refresh_err st ep opts body tail e hskip hrt hres]
    exact refreshAccessToken_frame st tail
  · rw [request_refresh_ok st ep opts body tail d hskip hrt hres]
    rw [request_skip_state _ _ _ _ (by simp)]
    exact refreshAccessToken_frame st tail

theorem request_pair (st : ClientState) (ep : String) (opts : RequestOptions)
    (net : List FetchResult) :
    ((request st ep opts net).state.token = st.token ∧
      (request st ep opts net).state.refreshToken = st.refreshToken) ∨
    (∃ b status body tail,
      net = FetchResult.ok 401 b :: FetchResult.ok status body :: tail ∧
      okStatus status = true ∧
      (request st ep opts net).state.token = (unwrapData body).get? "token" ∧
      (request st ep opts net).state.refreshToken
        = (unwrapData body).get? "refresh_token") := by
  rcases net with _ | ⟨r, tail⟩
  · rw [request_nil]
    exact Or.inl ⟨rfl, rfl⟩
  rcases r with ⟨status, body⟩ | _
  case cons.transportError =>
    rw [request_transport]
    exact Or.inl ⟨rfl, rfl⟩
  rcases hok : okStatus status
  case cons.ok.true =>
    rw [request_ok_status _ _ _ _ _ _ hok]
    exact Or.inl ⟨rfl, rfl⟩
  rcases hbr : (status == 401 && truthyOpt st.refreshToken && !opts.skipTokenRefresh)
  case false =>
    rw [request_no_refresh _ _ _ _ _ _ hok hbr]
    exact Or.inl ⟨rfl, rfl⟩
  simp only [Bool.and_eq_true, beq_iff_eq, Bool.not_eq_true'] at hbr
  obtain ⟨⟨h401, hrt⟩, hskip⟩ := hbr
  subst h401
  rcases hres : (refreshAccessToken st tail).result with e | d
  · rw [request_refresh_err st ep opts body tail e hskip hrt hres]
    rw [refreshAccessToken_state_err st tail e hres]
    exact Or.inl ⟨rfl, rfl⟩
  · rw [request_refresh_ok st ep opts body tail d hskip hrt hres]
    dsimp only
    rw [request_skip_state _ _ _ _ (by simp)]
    rw [refreshAccessToken_state_ok st tail d hres]
    obtain ⟨s, b, rest2, rfl, hoks, hd, _⟩ := refreshAccessToken_ok_shape st tail d hres
    subst hd
    exact Or.inr ⟨body, s, b, rest2, rfl, hoks, rfl, rfl⟩

theorem request_pairCoupled (st : ClientState) (ep : String) (opts : RequestOptions)
    (net : List FetchResult) :
    pairCoupled st (request st ep opts net).state net := by
  rcases request_pair st ep opts net with h | ⟨b, s, bd, tail, rfl, hoks, h1, h2⟩
  · exact Or.inl h
  · exact Or.inr (Or.inl ⟨s, bd, by simp, hoks, h1, h2⟩)

theorem request_events_dispatcher (st : ClientState) (ep : String)
    (opts : RequestOptions) (net : List FetchResult) :
    ((request st ep opts net).events.all Event.isDispatcherEvent) = true := by
  rcases net with _ | ⟨r, tail⟩
  · rw [request_nil]
    rfl
  rcases r with ⟨status, body⟩ | _
  case cons.transportError =>
    rw [request_transport]
    rfl
  rcases hok : okStatus status
  case cons.ok.true =>
    rw [request_ok_status _ _ _ _ _ _ hok]
    rfl
  rcases hbr : (status == 401 && truthyOpt st.refreshToken && !opts.skipTokenRefresh)
  case false =>
    rw [request_no_refresh _ _ _ _ _ _ hok hbr]
    simp only [List.all_cons, Bool.and_eq_true]
    refine ⟨rfl, ?_⟩
    split <;> rfl
  simp only [Bool.and_eq_true, beq_iff_eq, Bool.not_eq_true'] at hbr
  obtain ⟨⟨h401, hrt⟩, hskip⟩ := hbr
  subst h401
  rcases hres : (refreshAccessToken st tail).result with e | d
  · rw [request_refresh_err st ep opts body tail e hskip hrt hres]
    simp only [List.all_cons, List.all_append, Bool.and_eq_true]
    refine ⟨rfl, refreshAccessToken_events_dispatcher st tail, ?_⟩
    split <;> rfl
  · rw [request_refresh_ok st ep opts body tail d hskip hrt hres]
    simp only [List.all_cons, List.all_append, Bool.and_eq_true]
    exact ⟨rfl, refreshAccessToken_events_dispatcher st tail,
      request_skip_events_dispatcher _ _ _ _ (by simp)⟩

/-! ## Claim C1: single-flight refresh -/

/-- **C1**: for every client instance and every set of concurrently
suspended calls that each observe a 401 while holding a refresh token
(and hence enter `_refreshAccessToken` while the shared refresh, once
opened, is still pending), exactly one refresh network call is issued —
a caller entering while `isRefreshing` is true receives the pending
promise instead of starting a new refresh — every such caller observes
the same outcome, and on completion, success or failure, `isRefreshing`
is false and `refreshPromise` is cleared so a later 401 can start a
fresh refresh. -/
theorem claim_C1_single_flight_refresh (cs0 : ClientState) (n : Nat)
    (net : Nat → FetchResult) (sched : List CStep)
    (h0 : cs0.isRefreshing = false) (hn : 1 ≤ n)
    (hpre : entersPrecedeResolves sched = true)
    (hdone : ((crun net (initSys cs0 n) sched).callers.all CallerSt.isDone) = true) :
    countRefreshCalls (crun net (initSys cs0 n) sched).events = 1 ∧
    (∃ o, ∀ c ∈ (crun net (initSys cs0 n) sched).callers, c = CallerSt.done o) ∧
    (crun net (initSys cs0 n) sched).cs.isRefreshing = false ∧
    (crun net (initSys cs0 n) sched).refreshPromise = none := by
  have hlen : (crun net (initSys cs0 n) sched).callers.length = n := by
    rw [crun_callers_length]
    simp [initSys]
  rw [List.all_eq_true] at hdone
  rcases crun_phases cs0 n net sched h0 hpre with hA | hB | hC
  · exfalso
    obtain ⟨-, -, -, hca, -⟩ := hA
    obtain ⟨c, hc⟩ := List.exists_mem_of_length_pos (l := (crun net (initSys cs0 n) sched).callers) (by omega)
    have h2 := hdone c hc
    rw [hca c hc] at h2
    simp [CallerSt.isDone] at h2
  · exfalso
    obtain ⟨-, -, -, hca, -⟩ := hB
    obtain ⟨c, hc⟩ := List.exists_mem_of_length_pos (l := (crun net (initSys cs0 n) sched).callers) (by omega)
    have h2 := hdone c hc
    rcases hca c hc with h1 | h1 <;> rw [h1] at h2 <;> simp [CallerSt.isDone] at h2
  · obtain ⟨-, hrp, hir, hca, hct, -⟩ := hC
    refine ⟨hct, ⟨refreshOutcome cs0 net, ?_⟩, hir, hrp⟩
    intro c hc
    rcases hca c hc with h1 | h1 | h1
    · have h2 := hdone c hc
      rw [h1] at h2
      simp [CallerSt.isDone] at h2
    · have h2 := hdone c hc
      rw [h1] at h2
      simp [CallerSt.isDone] at h2
    · exact h1

/-- Witness for C1: two concurrent 401 observers, a successful refresh;
all hypotheses hold at this concrete input and the theorem's conclusion
is obtained from the theorem itself. -/
theorem claim_C1_single_flight_refresh_witness :
    exClient.isRefreshing = false ∧ 1 ≤ 2 ∧
    entersPrecedeResolves exSched = true ∧
    ((crun exNetOk (initSys exClient 2) exSched).callers.all CallerSt.isDone) = true ∧
    (countRefreshCalls (crun exNetOk (initSys exClient 2) exSched).events = 1 ∧
     (∃ o, ∀ c ∈ (crun exNetOk (initSys exClient 2) exSched).callers,
        c = CallerSt.done o) ∧
     (crun exNetOk (initSys exClient 2) exSched).cs.isRefreshing = false ∧
     (crun exNetOk (initSys exClient 2) exSched).refreshPromise = none) :=
  ⟨rfl, by omega, rfl, rfl,
    claim_C1_single_flight_refresh exClient 2 exNetOk exSched rfl (by omega) rfl rfl⟩

theorem countFetches_append (a b : List Event) :
    countFetches (a ++ b) = countFetches a + countFetches b :=
  List.countP_append _ a b

theorem countFetches_cons (e : Event) (evs : List Event) :
    countFetches (e :: evs) = countFetches evs + (if Event.isFetch e then 1 else 0) :=
  List.countP_cons _ e evs

theorem countSessionInvalid_append (a b : List Event) :
    countSessionInvalid (a ++ b) = countSessionInvalid a + countSessionInvalid b :=
  List.countP_append _ a b

theorem countReloads_append (a b : List Event) :
    countReloads (a ++ b) = countReloads a + countReloads b :=
  List.countP_append _ a b

theorem countRefreshCalls_cons (e : Event) (evs : List Event) :
    countRefreshCalls (e :: evs) = countRefreshCalls evs +
      (if (match e with
           | .fetchEv ep _ _ _ _ => ep == "/auth/refresh"
           | _ => false) then 1 else 0) :=
  List.countP_cons _ e evs

/-! ## Claim C2: refresh-and-retry exactly once -/

/-- **C2**: a 401 with a refresh token held and `skipTokenRefresh` unset
first awaits the refresh coordinator and then re-issues the identical
request (same endpoint, method, body) exactly once, with
`skipTokenRefresh: true`, dispatched against the replaced tokens — so for
the standard descriptor shape (no own `headers`, not device-token, auth
on) the retry carries `Authorization: Bearer <new token>`; and a request
marked `skipTokenRefresh` issues exactly one fetch on any network
answer — a 401 there never triggers a refresh. -/
theorem claim_C2_refresh_retry_once
    (st : ClientState) (ep : String) (opts : RequestOptions) (b : JsonValue)
    (r r2 : FetchResult) (rest : List FetchResult) (d : JsonValue)
    (hskip : opts.skipTokenRefresh = false)
    (hrt : truthyOpt st.refreshToken = true)
    (h0 : st.isRefreshing = false)
    (hr : (refreshNetContinuation { st with isRefreshing := true } r).1 = .ok d)
    (hep : (ep == "/auth/refresh") = false) :
    (request st ep opts (.ok 401 b :: r :: r2 :: rest) =
      ⟨(refreshNetContinuation
          { st with token := d.get? "token", refreshToken := d.get? "refresh_token" } r2).1,
       { st with token := d.get? "token", refreshToken := d.get? "refresh_token" },
       .fetchEv ep (opts.method.getD "GET") (configHeaders st opts) opts.body false
         :: ((refreshFetchEvent { st with isRefreshing := true }
            :: ((refreshNetContinuation { st with isRefreshing := true } r).2
              ++ (if st.hasOnTokenRefresh then
                   [Event.tokenRefreshCb (d.get? "token") (d.get? "refresh_token")
                     (d.get? "expires_at")] else [])))
           ++ (.fetchEv ep (opts.method.getD "GET")
                 (configHeaders
                   { st with
                       token := d.get? "token",
                       refreshToken := d.get? "refresh_token" }
                   { opts with skipTokenRefresh := true }) opts.body true
              :: (refreshNetContinuation
                   { st with
                       token := d.get? "token",
                       refreshToken := d.get? "refresh_token" } r2).2)),
       rest⟩) ∧
    countFetches (request st ep opts (.ok 401 b :: r :: r2 :: rest)).events = 3 ∧
    countRefreshCalls (request st ep opts (.ok 401 b :: r :: r2 :: rest)).events = 1 ∧
    (∀ tk : JsonValue, opts.headers = none → opts.useDeviceToken = false →
      opts.auth = true → d.get? "token" = some tk → jsonTruthy tk = true →
      configHeaders
          { st with token := d.get? "token", refreshToken := d.get? "refresh_token" }
          { opts with skipTokenRefresh := true } =
        [("Content-Type", "application/json"),
         ("Authorization", "Bearer " ++ jsonToStr tk)]) ∧
    (∀ (st' : ClientState) (ep' : String) (opts' : RequestOptions)
       (net' : List FetchResult),
      opts'.skipTokenRefresh = true →
      countFetches (request st' ep' opts' net').events = 1 ∧
      (request st' ep' opts' net').state = st') := by
  have hrr : (refreshAccessToken st (r :: r2 :: rest)).result = .ok d := by
    rw [refreshAccessToken_ok st h0 r (r2 :: rest) d hr]
  have h1 : request st ep opts (.ok 401 b :: r :: r2 :: rest) =
      ⟨(refreshNetContinuation
          { st with token := d.get? "token", refreshToken := d.get? "refresh_token" } r2).1,
       { st with token := d.get? "token", refreshToken := d.get? "refresh_token" },
       .fetchEv ep (opts.method.getD "GET") (configHeaders st opts) opts.body false
         :: ((refreshFetchEvent { st with isRefreshing := true }
            :: ((refreshNetContinuation { st with isRefreshing := true } r).2
              ++ (if st.hasOnTokenRefresh then
                   [Event.tokenRefreshCb (d.get? "token") (d.get? "refresh_token")
                     (d.get? "expires_at")] else [])))
           ++ (.fetchEv ep (opts.method.getD "GET")
                 (configHeaders
                   { st with
                       token := d.get? "token",
                       refreshToken := d.get? "refresh_token" }
                   { opts with skipTokenRefresh := true }) opts.body true
              :: (refreshNetContinuation
                   { st with
                       token := d.get? "token",
                       refreshToken := d.get? "refresh_token" } r2).2)),
       rest⟩ := by
    rw [request_refresh_ok st ep opts b (r :: r2 :: rest) d hskip hrt hrr]
    rw [refreshAccessToken_ok st h0 r (r2 :: rest) d hr]
    rw [request_skip_cons _ _ _ _ _ (by simp)]
  refine ⟨h1, ?_, ?_, ?_, ?_⟩
  · rw [h1]
    simp only [countFetches_cons, countFetches_append, countFetches_netCont,
      refreshFetchEvent, Event.isFetch]
    split <;> simp [countFetches, Event.isFetch, List.countP_cons]
  · rw [h1]
    simp only [countRefreshCalls_cons, countRefreshCalls_append,
      countRefreshCalls_netCont, refreshFetchEvent, hep]
    split <;> simp [countRefreshCalls, List.countP_cons, hep]
  · intro tk hh hu ha htk htr
    simp [configHeaders, builtHeaders, hh, hu, ha, htk, htr, truthyOpt, setHeader]
  · intro st' ep' opts' net' hskip'
    exact ⟨request_skip_fetches st' ep' opts' net' hskip',
      request_skip_state st' ep' opts' net' hskip'⟩

/-- Witness for C2: concrete 401 then successful refresh then retried
fetch; the retry count and single-refresh facts follow from the theorem
applied at this input; the credential clause holds at the refreshed token
`T2`. -/
theorem claim_C2_refresh_retry_once_witness :
    (({} : RequestOptions).skipTokenRefresh = false ∧
     truthyOpt exClient.refreshToken = true ∧
     exClient.isRefreshing = false ∧
     (refreshNetContinuation { exClient with isRefreshing := true }
        (.ok 200 exRefreshBody)).1 = .ok exRefreshBody ∧
     (("/users/me" : String) == "/auth/refresh") = false) ∧
    countFetches (request exClient "/users/me" {}
      [.ok 401 (.obj []), .ok 200 exRefreshBody,
       .ok 200 (.obj [("data", .str "me")])]).events = 3 ∧
    countRefreshCalls (request exClient "/users/me" {}
      [.ok 401 (.obj []), .ok 200 exRefreshBody,
       .ok 200 (.obj [("data", .str "me")])]).events = 1 ∧
    configHeaders
        { exClient with
            token := exRefreshBody.get? "token",
            refreshToken := exRefreshBody.get? "refresh_token" }
        ({ skipTokenRefresh := true } : RequestOptions) =
      [("Content-Type", "application/json"), ("Authorization", "Bearer T2")] := by
  have h := claim_C2_refresh_retry_once exClient "/users/me" {} (.obj [])
    (.ok 200 exRefreshBody) (.ok 200 (.obj [("data", .str "me")])) [] exRefreshBody
    rfl rfl rfl rfl rfl
  refine ⟨⟨rfl, rfl, rfl, rfl, rfl⟩, h.2.1, h.2.2.1, ?_⟩
  have h4 := h.2.2.2.1 (.str "T2") rfl rfl rfl rfl rfl
  simpa [jsonToStr] using h4

/-! ## Claim C5: refresh failure is atomic and shared -/

/-- **C5**: a failing refresh attempt leaves the held access and refresh
tokens exactly as they were (no partial or null replacement — the whole
client state is unchanged), the failure propagates to the caller whose
401 triggered the refresh, and in the interleaving model every caller
awaiting the same in-flight refresh observes that same failure with the
token pair unchanged. -/
theorem claim_C5_refresh_failure_atomic :
    (∀ (st : ClientState) (net : List FetchResult) (e : ApiError),
      (refreshAccessToken st net).result = .error e →
      (refreshAccessToken st net).state = st) ∧
    (∀ (st : ClientState) (ep : String) (opts : RequestOptions) (b : JsonValue)
       (tail : List FetchResult) (e : ApiError),
      opts.skipTokenRefresh = false →
      truthyOpt st.refreshToken = true →
      (refreshAccessToken st tail).result = .error e →
      (request st ep opts (.ok 401 b :: tail)).result = .error e ∧
      (request st ep opts (.ok 401 b :: tail)).state = st) ∧
    (∀ (cs0 : ClientState) (n : Nat) (net : Nat → FetchResult) (sched : List CStep)
       (e : ApiError),
      cs0.isRefreshing = false → 1 ≤ n →
      entersPrecedeResolves sched = true →
      ((crun net (initSys cs0 n) sched).callers.all CallerSt.isDone) = true →
      refreshOutcome cs0 net = .error e →
      (∀ c ∈ (crun net (initSys cs0 n) sched).callers, c = CallerSt.done (.error e)) ∧
      (crun net (initSys cs0 n) sched).cs.token = cs0.token ∧
      (crun net (initSys cs0 n) sched).cs.refreshToken = cs0.refreshToken) := by
  refine ⟨?_, ?_, ?_⟩
  · exact fun st net e h => refreshAccessToken_state_err st net e h
  · intro st ep opts b tail e hskip hrt hres
    rw [request_refresh_err st ep opts b tail e hskip hrt hres]
    exact ⟨rfl, refreshAccessToken_state_err st tail e hres⟩
  · intro cs0 n net sched e h0 hn hpre hdone ho
    have hlen : (crun net (initSys cs0 n) sched).callers.length = n := by
      rw [crun_callers_length]
      simp [initSys]
    rw [List.all_eq_true] at hdone
    rcases crun_phases cs0 n net sched h0 hpre with hA | hB | hC
    · exfalso
      obtain ⟨-, -, -, hca, -⟩ := hA
      obtain ⟨c, hc⟩ := List.exists_mem_of_length_pos
        (l := (crun net (initSys cs0 n) sched).callers) (by omega)
      have h2 := hdone c hc
      rw [hca c hc] at h2
      simp [CallerSt.isDone] at h2
    · exfalso
      obtain ⟨-, -, -, hca, -⟩ := hB
      obtain ⟨c, hc⟩ := List.exists_mem_of_length_pos
        (l := (crun net (initSys cs0 n) sched).callers) (by omega)
      have h2 := hdone c hc
      rcases hca c hc with h1 | h1 <;> rw [h1] at h2 <;> simp [CallerSt.isDone] at h2
    · obtain ⟨-, -, -, hca, -, hcs⟩ := hC
      rw [ho] at hca hcs
      refine ⟨?_, by rw [hcs], by rw [hcs]⟩
      intro c hc
      rcases hca c hc with h1 | h1 | h1
      · have h2 := hdone c hc
        rw [h1] at h2
        simp [CallerSt.isDone] at h2
      · have h2 := hdone c hc
        rw [h1] at h2
        simp [CallerSt.isDone] at h2
      · exact h1

/-- Witness for C5 at a concrete failing refresh: the refresh endpoint
answers 500; sequentially the state is unchanged and the error
propagates; concurrently both callers observe the same failure. -/
theorem claim_C5_refresh_failure_atomic_witness :
    ((refreshAccessToken exClient [.ok 500 (.obj [("error", .str "boom")])]).result
        = .error (.api (.str "boom") 500 (.obj [("error", .str "boom")])) ∧
      (refreshAccessToken exClient [.ok 500 (.obj [("error", .str "boom")])]).state
        = exClient) ∧
    (refreshOutcome exClient exNetFail
        = .error (.api (.str "boom") 500 (.obj [("error", .str "boom")])) ∧
      (∀ c ∈ (crun exNetFail (initSys exClient 2) exSched).callers,
        c = CallerSt.done (.error (.api (.str "boom") 500 (.obj [("error", .str "boom")])))) ∧
      (crun exNetFail (initSys exClient 2) exSched).cs.token = exClient.token ∧
      (crun exNetFail (initSys exClient 2) exSched).cs.refreshToken
        = exClient.refreshToken) := by
  have hres : (refreshAccessToken exClient [.ok 500 (.obj [("error", .str "boom")])]).result
      = .error (.api (.str "boom") 500 (.obj [("error", .str "boom")])) := by
    rw [refreshAccessToken_err exClient rfl _ _ _ (by rfl)]
    rfl
  have h3 := claim_C5_refresh_failure_atomic.2.2 exClient 2 exNetFail exSched
    (.api (.str "boom") 500 (.obj [("error", .str "boom")]))
    rfl (by omega) rfl rfl rfl
  exact ⟨⟨hres, claim_C5_refresh_failure_atomic.1 _ _ _ hres⟩, rfl, h3.1, h3.2.1, h3.2.2⟩

/-! ## Claim C6: credential attachment -/

/-- **C6** (code bug, lines 75-79): the claim's credential-attachment rule
fails for descriptors that supply their own `headers` field.  At the
failing input — access token `T1` held, descriptor
`{ headers: { X-Custom: 1 } }` — the dispatched request carries only the
descriptor's raw headers and no `Authorization` at all, because the
`...options` spread overwrites the built `headers` object; the second
conjunct shows the credential-bearing header object the dispatcher had
built (and line 75-79 then discards), matching the claim's expectation. -/
theorem claim_C6_credential_attachment :
    (request exClient "/users/me" { headers := some [("X-Custom", "1")] }
       [.ok 200 (.obj [("data", .str "ok")])]).events =
      [.fetchEv "/users/me" "GET" [("X-Custom", "1")] none false] ∧
    builtHeaders exClient { headers := some [("X-Custom", "1")] } =
      [("Content-Type", "application/json"), ("X-Custom", "1"),
       ("Authorization", "Bearer T1")] := by
  constructor
  · rw [request_ok_status _ _ _ _ _ _ (by rfl)]
    rfl
  · simp [builtHeaders, setHeader, exClient, truthyOpt, jsonTruthy, jsonToStr]

/-! ## Claim C8: response unwrapping -/

/-- **C8**: every 2xx response resolves to the decoded body's nested
`data` field when that key is present, and to the whole decoded body
verbatim otherwise. -/
theorem claim_C8_response_unwrapping (st : ClientState) (ep : String)
    (opts : RequestOptions) (status : Nat) (body : JsonValue)
    (rest : List FetchResult) (hok : 200 ≤ status ∧ status < 300) :
    (request st ep opts (.ok status body :: rest)).result =
      .ok (match body.get? "data" with
           | some v => v
           | none => body) := by
  have hb : okStatus status = true := by
    rw [okStatus]
    simp [hok.1, hok.2]
  rw [request_ok_status st ep opts status body rest hb]
  rfl

/-- Witness for C8: `{ data: { id: "p1" } }` yields `{ id: "p1" }`; a body
with no `data` key is returned verbatim. -/
theorem claim_C8_response_unwrapping_witness :
    (200 ≤ 200 ∧ 200 < 300) ∧
    (request exClient "/properties/p1" {}
        [.ok 200 (.obj [("data", .obj [("id", .str "p1")])])]).result
      = .ok (.obj [("id", .str "p1")]) ∧
    (request exClient "/properties/p1" {}
        [.ok 200 (.obj [("id", .str "p1")])]).result
      = .ok (.obj [("id", .str "p1")]) := by
  refine ⟨⟨by omega, by omega⟩, ?_, ?_⟩
  · rw [claim_C8_response_unwrapping exClient "/properties/p1" {} 200 _ _
      ⟨by omega, by omega⟩]
    rfl
  · rw [claim_C8_response_unwrapping exClient "/properties/p1" {} 200 _ _
      ⟨by omega, by omega⟩]
    rfl

theorem clearTokens_counts (st : ClientState) :
    countFetches (clearTokens st).2 = 0 ∧ countRefreshCalls (clearTokens st).2 = 0 ∧
    countSessionInvalid (clearTokens st).2 = 0 ∧ countReloads (clearTokens st).2 = 0 ∧
    countAuthErr (clearTokens st).2 = 0 := by
  unfold clearTokens
  dsimp only
  refine ⟨?_, ?_, ?_, ?_, ?_⟩ <;>
    (repeat' split) <;>
    simp [countFetches, countRefreshCalls, countSessionInvalid, countReloads,
      countAuthErr, List.countP_cons, List.countP_append, Event.isFetch]

/-- `getDeviceInfo` when the dispatch succeeds: plain pass-through. -/
theorem getDeviceInfo_ok (st : ClientState) (net : List FetchResult) (v : JsonValue)
    (hres : (request st "/device/info" { useDeviceToken := true } net).result = .ok v) :
    getDeviceInfo st net =
      ⟨.ok v, (request st "/device/info" { useDeviceToken := true } net).state,
       (request st "/device/info" { useDeviceToken := true } net).events,
       (request st "/device/info" { useDeviceToken := true } net).rest⟩ := by
  unfold getDeviceInfo
  simp only [hres]

/-- `getDeviceInfo` when the dispatch throws a non-401 error: rethrown
unchanged, no clearing, no notification. -/
theorem getDeviceInfo_error_other (st : ClientState) (net : List FetchResult)
    (e : ApiError)
    (hres : (request st "/device/info" { useDeviceToken := true } net).result = .error e)
    (h401 : (e.statusOf == some 401) = false) :
    getDeviceInfo st net =
      ⟨.error e, (request st "/device/info" { useDeviceToken := true } net).state,
       (request st "/device/info" { useDeviceToken := true } net).events,
       (request st "/device/info" { useDeviceToken := true } net).rest⟩ := by
  unfold getDeviceInfo
  simp only [hres, h401]
  rfl

/-- `getDeviceInfo` when the dispatch throws a 401-classified error: all
three credentials are nulled, then the session-invalid callback fires
when registered (else a reload when a window exists), and the error is
rethrown. -/
theorem getDeviceInfo_error401 (st : ClientState) (net : List FetchResult)
    (e : ApiError)
    (hres : (request st "/device/info" { useDeviceToken := true } net).result = .error e)
    (h401 : e.statusOf = some 401) :
    getDeviceInfo st net =
      ⟨.error e,
       { (request st "/device/info" { useDeviceToken := true } net).state with
           token := none, refreshToken := none, deviceToken := none },
       (request st "/device/info" { useDeviceToken := true } net).events ++
         (clearTokens (request st "/device/info" { useDeviceToken := true } net).state).2 ++
         (if (request st "/device/info" { useDeviceToken := true } net).state.hasOnDeviceSessionInvalid then
            [Event.deviceSessionInvalidCb]
          else if (request st "/device/info" { useDeviceToken := true } net).state.hasWindow then
            [Event.pageReload]
          else []),
       (request st "/device/info" { useDeviceToken := true } net).rest⟩ := by
  unfold getDeviceInfo
  simp only [hres, h401]
  rfl

/-! ## Claim C3: device-info 401 and the refresh coordinator -/

/-- **C3** (counterexample): the claim quantifies over every combination
of held tokens, but `getDeviceInfo` does not mark its request
`skipTokenRefresh`; with a refresh token held (alongside the device
token), a 401 on `/device/info` IS resolved via the refresh coordinator:
one refresh network call occurs and the call succeeds after retry —
neither terminal nor refresh-free. -/
theorem claim_C3_device_info_counterexample :
    countRefreshCalls (getDeviceInfo exClient
      [.ok 401 (.obj []), .ok 200 exRefreshBody,
       .ok 200 (.obj [("data", .obj [("name", .str "Lobby TV")])])]).events = 1 ∧
    (getDeviceInfo exClient
      [.ok 401 (.obj []), .ok 200 exRefreshBody,
       .ok 200 (.obj [("data", .obj [("name", .str "Lobby TV")])])]).result
      = .ok (.obj [("name", .str "Lobby TV")]) := by
  constructor <;>
    simp [getDeviceInfo, request, refreshAccessToken, refreshNetContinuation,
      configHeaders, builtHeaders, okStatus, unwrapData, JsonValue.get?, truthyOpt,
      jsonTruthy, setHeader, errMessage, exClient, exRefreshBody, countRefreshCalls,
      List.countP_cons, List.countP_append, ApiError.statusOf, jsonToStr]

/-- **C3** (amended): for every client state holding no truthy refresh
token, a `getDeviceInfo` call is never resolved via the refresh
coordinator: exactly one fetch is issued and none to the refresh
endpoint; a 401-classified failure is immediately terminal — all three
credential fields cleared, the device-session-invalid callback fired
exactly once when registered, else one page reload when a window
exists. -/
theorem claim_C3_device_info_amended (st : ClientState) (net : List FetchResult)
    (hrt : truthyOpt st.refreshToken = false) :
    countRefreshCalls (getDeviceInfo st net).events = 0 ∧
    countFetches (getDeviceInfo st net).events = 1 ∧
    (∀ e : ApiError, (getDeviceInfo st net).result = .error e →
      e.statusOf = some 401 →
      (getDeviceInfo st net).state.token = none ∧
      (getDeviceInfo st net).state.refreshToken = none ∧
      (getDeviceInfo st net).state.deviceToken = none ∧
      (st.hasOnDeviceSessionInvalid = true →
        countSessionInvalid (getDeviceInfo st net).events = 1 ∧
        countReloads (getDeviceInfo st net).events = 0) ∧
      (st.hasOnDeviceSessionInvalid = false → st.hasWindow = true →
        countSessionInvalid (getDeviceInfo st net).events = 0 ∧
        countReloads (getDeviceInfo st net).events = 1)) := by
  rcases net with _ | ⟨r, tail⟩
  · have hq := request_nil st "/device/info" { useDeviceToken := true }
    have hres : (request st "/device/info" { useDeviceToken := true } []).result
        = .error .transport := by rw [hq]
    rw [getDeviceInfo_error_other st [] .transport hres rfl]
    refine ⟨?_, ?_, ?_⟩
    · rw [hq]
      simp [countRefreshCalls, List.countP_cons]
    · rw [hq]
      simp [countFetches, List.countP_cons, Event.isFetch]
    · intro e he h401
      obtain rfl : ApiError.transport = e := by simpa using he
      simp [ApiError.statusOf] at h401
  rcases r with ⟨status, body⟩ | _
  case cons.transportError =>
    have hq := request_transport st "/device/info" { useDeviceToken := true } tail
    have hres : (request st "/device/info" { useDeviceToken := true }
        (.transportError :: tail)).result = .error .transport := by rw [hq]
    rw [getDeviceInfo_error_other st _ .transport hres rfl]
    refine ⟨?_, ?_, ?_⟩
    · rw [hq]
      simp [countRefreshCalls, List.countP_cons]
    · rw [hq]
      simp [countFetches, List.countP_cons, Event.isFetch]
    · intro e he h401
      obtain rfl : ApiError.transport = e := by simpa using he
      simp [ApiError.statusOf] at h401
  rcases hok : okStatus status
  case cons.ok.true =>
    have hq := request_ok_status st "/device/info" { useDeviceToken := true }
      status body tail hok
    have hres : (request st "/device/info" { useDeviceToken := true }
        (.ok status body :: tail)).result = .ok (unwrapData body) := by rw [hq]
    rw [getDeviceInfo_ok st _ (unwrapData body) hres]
    refine ⟨?_, ?_, ?_⟩
    · rw [hq]
      simp [countRefreshCalls, List.countP_cons]
    · rw [hq]
      simp [countFetches, List.countP_cons, Event.isFetch]
    · intro e he h401
      simp at he
  case cons.ok.false =>
    have hbr : (status == 401 && truthyOpt st.refreshToken &&
        !({ useDeviceToken := true } : RequestOptions).skipTokenRefresh) = false := by
      rw [hrt]
      simp
    have hq := request_no_refresh st "/device/info" { useDeviceToken := true }
      status body tail hok hbr
    have hres : (request st "/device/info" { useDeviceToken := true }
        (.ok status body :: tail)).result
        = .error (.api (errMessage body) status body) := by rw [hq]
    rcases h401 : (status == 401)
    case false =>
      rw [getDeviceInfo_error_other st _ _ hres (by simp [ApiError.statusOf, h401])]
      refine ⟨?_, ?_, ?_⟩
      · rw [hq]
        simp only [countRefreshCalls_cons]
        split <;> simp [countRefreshCalls, List.countP_cons]
      · rw [hq]
        simp only [countFetches_cons]
        split <;> simp [countFetches, List.countP_cons, Event.isFetch]
      · intro e he hst
        obtain rfl : ApiError.api (errMessage body) status body = e := by simpa using he
        simp only [ApiError.statusOf, Option.some.injEq] at hst
        rw [hst] at h401
        simp at h401
    case true =>
      have hstatus : status = 401 := by simpa using h401
      subst hstatus
      rw [getDeviceInfo_error401 st _ _ hres rfl]
      have hqs : (request st "/device/info" { useDeviceToken := true }
          (.ok 401 body :: tail)).state = st := by rw [hq]
      have hqe : (request st "/device/info" { useDeviceToken := true }
          (.ok 401 body :: tail)).events =
          Event.fetchEv "/device/info" "GET"
            (configHeaders st { useDeviceToken := true }) none false
          :: (if (401 == 401 && st.hasOnAuthError : Bool) then
              [Event.authErrorCb (some 401)] else []) := by
        rw [hq]
        rfl
      have hcc := clearTokens_counts
        ((request st "/device/info" { useDeviceToken := true }
          (.ok 401 body :: tail)).state)
      refine ⟨?_, ?_, ?_⟩
      · rw [countRefreshCalls_append, countRefreshCalls_append, hcc.2.1, hqe,
          countRefreshCalls_cons]
        (repeat' split) <;> simp_all [countRefreshCalls, List.countP_cons]
      · rw [countFetches_append, countFetches_append, hcc.1, hqe, countFetches_cons]
        (repeat' split) <;> simp_all [countFetches, List.countP_cons, Event.isFetch]
      · intro e he hst
        refine ⟨rfl, rfl, rfl, ?_, ?_⟩
        · intro hreg
          constructor
          · rw [countSessionInvalid_append, countSessionInvalid_append, hcc.2.2.1,
              hqe, hqs, hreg]
            (repeat' split) <;> simp_all [countSessionInvalid, List.countP_cons]
          · rw [countReloads_append, countReloads_append, hcc.2.2.2.1, hqe, hqs, hreg]
            (repeat' split) <;> simp_all [countReloads, List.countP_cons]
        · intro hreg hwin
          constructor
          · rw [countSessionInvalid_append, countSessionInvalid_append, hcc.2.2.1,
              hqe, hqs, hreg, hwin]
            (repeat' split) <;> simp_all [countSessionInvalid, List.countP_cons]
          · rw [countReloads_append, countReloads_append, hcc.2.2.2.1, hqe, hqs,
              hreg, hwin]
            (repeat' split) <;> simp_all [countReloads, List.countP_cons]

/-- Witness for the amended C3: a device-only client (no refresh token),
a 401 on `/device/info`; no refresh call, one fetch, credentials cleared
and the session-invalid callback fired once. -/
theorem claim_C3_device_info_amended_witness :
    truthyOpt ({ exClient with refreshToken := none } : ClientState).refreshToken
      = false ∧
    countRefreshCalls (getDeviceInfo { exClient with refreshToken := none }
      [.ok 401 (.obj [])]).events = 0 ∧
    countFetches (getDeviceInfo { exClient with refreshToken := none }
      [.ok 401 (.obj [])]).events = 1 ∧
    (getDeviceInfo { exClient with refreshToken := none }
      [.ok 401 (.obj [])]).state.token = none ∧
    (getDeviceInfo { exClient with refreshToken := none }
      [.ok 401 (.obj [])]).state.deviceToken = none ∧
    countSessionInvalid (getDeviceInfo { exClient with refreshToken := none }
      [.ok 401 (.obj [])]).events = 1 := by
  have h := claim_C3_device_info_amended { exClient with refreshToken := none }
    [.ok 401 (.obj [])] rfl
  have hres : (getDeviceInfo { exClient with refreshToken := none }
      [.ok 401 (.obj [])]).result
      = .error (.api (.str "API request failed") 401 (.obj [])) := by
    simp [getDeviceInfo, request, refreshNetContinuation, configHeaders, builtHeaders,
      okStatus, unwrapData, JsonValue.get?, truthyOpt, jsonTruthy, setHeader,
      errMessage, exClient, ApiError.statusOf, jsonToStr, clearTokens]
  have h3 := h.2.2 _ hres rfl
  exact ⟨rfl, h.1, h.2.1, h3.1, h3.2.2.1, (h3.2.2.2.1 rfl).1⟩

/-! ## Claim C4: clearing before notifying -/

theorem takeWhile_append_of_all {α : Type} (p : α → Bool) (a b : List α)
    (h : ∀ x ∈ a, p x = true) : (a ++ b).takeWhile p = a ++ b.takeWhile p := by
  induction a with
  | nil => simp
  | cons x xs ih =>
    simp only [List.cons_append, List.takeWhile_cons, h x (by simp)]
    rw [ih (fun y hy => h y (by simp [hy]))]
    simp

/-- A trace of pure dispatcher events carries no clearing marker, no
session-invalid callback, and no reload. -/
theorem dispatcher_counts (evs : List Event)
    (h : (evs.all Event.isDispatcherEvent) = true) :
    countSessionInvalid evs = 0 ∧ countReloads evs = 0 ∧
    (evs.all fun e => !e.isCleared) = true ∧
    (evs.all fun e => !(match e with
       | Event.deviceSessionInvalidCb => true
       | Event.pageReload => true
       | _ => false)) = true := by
  rw [List.all_eq_true] at h
  refine ⟨List.countP_eq_zero.mpr ?_, List.countP_eq_zero.mpr ?_,
    List.all_eq_true.mpr ?_, List.all_eq_true.mpr ?_⟩ <;>
    (intro x hx
     have hd := h x hx
     cases x <;> simp_all [Event.isDispatcherEvent, Event.isCleared])

/-- **C4** (counterexample): with the auth-error callback registered, a
device-only `getDeviceInfo` 401 fires the auth-error notification from
the dispatcher's catch block *before* `getDeviceInfo` clears the
credential fields — so the three fields are not nulled strictly before
every notification. -/
theorem claim_C4_clear_before_notify_counterexample :
    clearedBeforeAllNotifications (getDeviceInfo
      { exClient with token := none, refreshToken := none }
      [.ok 401 (.obj [])]).events = false := by
  simp [getDeviceInfo, request, refreshNetContinuation, configHeaders, builtHeaders,
    okStatus, unwrapData, JsonValue.get?, truthyOpt, jsonTruthy, setHeader, errMessage,
    exClient, ApiError.statusOf, clearTokens, clearedBeforeAllNotifications,
    Event.isCleared, Event.isNotification, jsonToStr]

/-- **C4** (amended): on a 401-classified `getDeviceInfo` failure, all
three credential fields are nulled strictly before the
device-session-invalid notification (or default page reload) fires — the
dispatcher's auth-error notification, when registered, precedes the
clearing; then `onDeviceSessionInvalid` is invoked exactly once when
registered, otherwise one page reload occurs when a window exists; and
the original error is rethrown (the `hres` hypothesis names it). -/
theorem claim_C4_session_invalid_amended (st : ClientState) (net : List FetchResult)
    (e : ApiError)
    (hres : (getDeviceInfo st net).result = .error e)
    (h401 : e.statusOf = some 401) :
    (getDeviceInfo st net).state.token = none ∧
    (getDeviceInfo st net).state.refreshToken = none ∧
    (getDeviceInfo st net).state.deviceToken = none ∧
    clearedBeforeSessionInvalid (getDeviceInfo st net).events = true ∧
    (st.hasOnDeviceSessionInvalid = true →
      countSessionInvalid (getDeviceInfo st net).events = 1 ∧
      countReloads (getDeviceInfo st net).events = 0) ∧
    (st.hasOnDeviceSessionInvalid = false → st.hasWindow = true →
      countSessionInvalid (getDeviceInfo st net).events = 0 ∧
      countReloads (getDeviceInfo st net).events = 1) := by
  rcases hQ : (request st "/device/info" { useDeviceToken := true } net).result
    with eq | v
  case ok =>
    rw [getDeviceInfo_ok st net v hQ] at hres
    exact absurd hres (by simp)
  rcases hb : (eq.statusOf == some 401)
  case false =>
    rw [getDeviceInfo_error_other st net eq hQ hb] at hres
    obtain rfl : eq = e := by simpa using hres
    rw [h401] at hb
    simp at hb
  have hb' : eq.statusOf = some 401 := by simpa using hb
  have hdisp := dispatcher_counts _
    (request_events_dispatcher st "/device/info" { useDeviceToken := true } net)
  have hcc := clearTokens_counts
    ((request st "/device/info" { useDeviceToken := true } net).state)
  obtain ⟨-, -, -, -, hinv, -, -, -, hwin, -, -⟩ :=
    request_frame st "/device/info" { useDeviceToken := true } net
  rw [getDeviceInfo_error401 st net eq hQ hb']
  refine ⟨rfl, rfl, rfl, ?_, ?_, ?_⟩
  · show clearedBeforeSessionInvalid
      ((request st "/device/info" { useDeviceToken := true } net).events ++
        (clearTokens _).2 ++ _) = true
    rw [clearedBeforeSessionInvalid, List.append_assoc,
      takeWhile_append_of_all _ _ _ (List.all_eq_true.mp hdisp.2.2.1),
      List.all_append]
    refine (Bool.and_eq_true _ _).mpr ⟨hdisp.2.2.2, ?_⟩
    rw [clearTokens]
    rfl
  · intro hreg
    rw [← hinv] at hreg
    constructor
    · rw [countSessionInvalid_append, countSessionInvalid_append, hdisp.1,
        hcc.2.2.1, hreg]
      simp [countSessionInvalid, List.countP_cons]
    · rw [countReloads_append, countReloads_append, hdisp.2.1, hcc.2.2.2.1, hreg]
      simp [countReloads, List.countP_cons]
  · intro hreg hw
    rw [← hinv] at hreg
    rw [← hwin] at hw
    constructor
    · rw [countSessionInvalid_append, countSessionInvalid_append, hdisp.1,
        hcc.2.2.1, hreg, hw]
      simp [countSessionInvalid, List.countP_cons]
    · rw [countReloads_append, countReloads_append, hdisp.2.1, hcc.2.2.2.1, hreg, hw]
      simp [countReloads, List.countP_cons]

/-- Witness for the amended C4: device-only client with both callbacks
registered; the 401 clears all fields before the session-invalid
callback, which fires exactly once. -/
theorem claim_C4_session_invalid_amended_witness :
    ((getDeviceInfo { exClient with token := none, refreshToken := none }
        [.ok 401 (.obj [])]).result
      = .error (.api (.str "API request failed") 401 (.obj [])) ∧
     (ApiError.api (.str "API request failed") 401 (.obj [])).statusOf = some 401) ∧
    (getDeviceInfo { exClient with token := none, refreshToken := none }
      [.ok 401 (.obj [])]).state.deviceToken = none ∧
    clearedBeforeSessionInvalid (getDeviceInfo
      { exClient with token := none, refreshToken := none }
      [.ok 401 (.obj [])]).events = true ∧
    countSessionInvalid (getDeviceInfo
      { exClient with token := none, refreshToken := none }
      [.ok 401 (.obj [])]).events = 1 := by
  have hres : (getDeviceInfo { exClient with token := none, refreshToken := none }
      [.ok 401 (.obj [])]).result
      = .error (.api (.str "API request failed") 401 (.obj [])) := by
    simp [getDeviceInfo, request, refreshNetContinuation, configHeaders, builtHeaders,
      okStatus, unwrapData, JsonValue.get?, truthyOpt, jsonTruthy, setHeader,
      errMessage, exClient, ApiError.statusOf, clearTokens, jsonToStr]
  have h := claim_C4_session_invalid_amended
    { exClient with token := none, refreshToken := none } [.ok 401 (.obj [])]
    (.api (.str "API request failed") 401 (.obj [])) hres rfl
  exact ⟨⟨hres, rfl⟩, h.2.2.1, h.2.2.2.1, (h.2.2.2.2.1 rfl).1⟩

/-! ## Claim C7: auth-error notification discipline -/

theorem netCont_ok_events (st : ClientState) (r : FetchResult) (d : JsonValue)
    (h : (refreshNetContinuation st r).1 = .ok d) :
    (refreshNetContinuation st r).2 = [] := by
  unfold refreshNetContinuation at h ⊢
  rcases r with ⟨s, b⟩ | _
  · dsimp only at h ⊢
    rcases hok : okStatus s
    · simp [hok] at h
    · simp [hok]
  · exact absurd h (by simp)

/-- **C7** (counterexample): the refresh endpoint answers 500; the
original 401 goes unresolved and the logical call fails, yet the
registered auth-error callback is never invoked (the surfaced error has
status 500, and the dispatcher's catch only fires the callback on status
401). -/
theorem claim_C7_auth_error_counterexample :
    countAuthErr (request exClient "/users/me" {}
      [.ok 401 (.obj []), .ok 500 (.obj [("error", .str "boom")])]).events = 0 ∧
    (request exClient "/users/me" {}
      [.ok 401 (.obj []), .ok 500 (.obj [("error", .str "boom")])]).result
      = .error (.api (.str "boom") 500 (.obj [("error", .str "boom")])) ∧
    exClient.hasOnAuthError = true := by
  refine ⟨?_, ?_, rfl⟩ <;>
    simp +decide [request, refreshAccessToken, refreshNetContinuation, configHeaders,
      builtHeaders, okStatus, unwrapData, JsonValue.get?, List.lookup, truthyOpt,
      jsonTruthy, setHeader, errMessage, exClient, countAuthErr, List.countP_cons,
      List.countP_append, ApiError.statusOf, refreshFetchEvent, jsonToStr]

/-- **C7** (amended): with the auth-error callback registered and the
client quiescent — (a) a call that fails without entering the refresh
path fires the callback exactly once when the status is 401 and never
otherwise; (b) after a successful refresh, the callback fires exactly
once when the retry is answered 401 and never when the retry succeeds or
fails with another status; (c) when the refresh attempt itself is
answered a non-2xx status, the callback fires twice if that status is 401
(once from the refresh request's own catch, once from the outer catch)
and zero times otherwise — in particular zero times on a 500, although
the original 401 went unresolved. -/
theorem claim_C7_auth_error_amended (st : ClientState)
    (hA : st.hasOnAuthError = true) (h0 : st.isRefreshing = false) :
    (∀ (ep : String) (opts : RequestOptions) (status : Nat) (body : JsonValue)
       (rest : List FetchResult),
      okStatus status = false →
      (status == 401 && truthyOpt st.refreshToken && !opts.skipTokenRefresh) = false →
      countAuthErr (request st ep opts (.ok status body :: rest)).events =
        if status == 401 then 1 else 0) ∧
    (∀ (ep : String) (opts : RequestOptions) (b : JsonValue) (r : FetchResult)
       (s2 : Nat) (b2 : JsonValue) (rest : List FetchResult) (d : JsonValue),
      opts.skipTokenRefresh = false →
      truthyOpt st.refreshToken = true →
      (refreshNetContinuation { st with isRefreshing := true } r).1 = .ok d →
      countAuthErr (request st ep opts
          (.ok 401 b :: r :: .ok s2 b2 :: rest)).events =
        if okStatus s2 then 0 else if s2 == 401 then 1 else 0) ∧
    (∀ (ep : String) (opts : RequestOptions) (b : JsonValue) (sE : Nat)
       (bE : JsonValue) (rest : List FetchResult),
      opts.skipTokenRefresh = false →
      truthyOpt st.refreshToken = true →
      okStatus sE = false →
      countAuthErr (request st ep opts (.ok 401 b :: .ok sE bE :: rest)).events =
        if sE == 401 then 2 else 0) := by
  refine ⟨?_, ?_, ?_⟩
  · intro ep opts status body rest hok hbr
    rw [request_no_refresh st ep opts status body rest hok hbr]
    rcases h4 : (status == 401)
    · simp [countAuthErr, List.countP_cons, h4]
    · simp [countAuthErr, List.countP_cons, h4, hA]
  · intro ep opts b r s2 b2 rest d hskip hrt hr
    have hrr : (refreshAccessToken st (r :: .ok s2 b2 :: rest)).result = .ok d := by
      rw [refreshAccessToken_ok st h0 r (.ok s2 b2 :: rest) d hr]
    rw [request_refresh_ok st ep opts b (r :: .ok s2 b2 :: rest) d hskip hrt hrr]
    rw [refreshAccessToken_ok st h0 r (.ok s2 b2 :: rest) d hr]
    rw [request_skip_cons _ _ _ _ _ (by simp)]
    simp only [List.countP_cons, countAuthErr, List.countP_append,
      netCont_ok_events _ r d hr]
    have hc2 := countAuthErr_netCont
      { st with token := d.get? "token", refreshToken := d.get? "refresh_token" }
      (.ok s2 b2)
    rw [countAuthErr] at hc2
    rw [hc2]
    rcases hok2 : okStatus s2
    · rcases h4 : (s2 == 401)
      · simp [refreshFetchEvent, hok2, h4]
      · simp [refreshFetchEvent, hok2, h4, hA]
    · simp [refreshFetchEvent, hok2]
  · intro ep opts b sE bE rest hskip hrt hokE
    have hr : (refreshNetContinuation { st with isRefreshing := true }
        (.ok sE bE)).1 = .error (.api (errMessage bE) sE bE) := by
      unfold refreshNetContinuation
      dsimp only
      rw [if_neg (by rw [hokE]; exact Bool.false_ne_true)]
    have hG := refreshAccessToken_err st h0 (.ok sE bE) rest _ hr
    have hrr : (refreshAccessToken st (.ok sE bE :: rest)).result
        = .error (.api (errMessage bE) sE bE) := by rw [hG]
    rw [request_refresh_err st ep opts b (.ok sE bE :: rest) _ hskip hrt hrr, hG]
    dsimp only
    have hcE := countAuthErr_netCont { st with isRefreshing := true } (.ok sE bE)
    rw [countAuthErr] at hcE
    simp only [countAuthErr, List.countP_cons, List.countP_append, hcE,
      ApiError.statusOf, refreshFetchEvent]
    by_cases h4 : sE = 401
    · subst h4
      simp [hokE, hA]
    · simp [hokE, hA, h4]

/-- Witness for the amended C7: the refresh endpoint itself answers 401 —
the auth-error callback fires twice for the one logical call. -/
theorem claim_C7_auth_error_amended_witness :
    (exClient.hasOnAuthError = true ∧ exClient.isRefreshing = false ∧
     ({} : RequestOptions).skipTokenRefresh = false ∧
     truthyOpt exClient.refreshToken = true ∧ okStatus 401 = false) ∧
    countAuthErr (request exClient "/users/me" {}
      [.ok 401 (.obj []), .ok 401 (.obj [("error", .str "expired")])]).events = 2 := by
  have h := (claim_C7_auth_error_amended exClient rfl rfl).2.2 "/users/me" {}
    (.obj []) 401 (.obj [("error", .str "expired")]) [] rfl rfl rfl
  exact ⟨⟨rfl, rfl, rfl, rfl, rfl⟩, by simpa using h⟩

/-! ## Claim C9: the token pair is always replaced together -/

/-- **C9**: on every successful `register`, `login`, and refresh, the
access and refresh tokens are both replaced in the same step from the
`token`/`refresh_token` fields of the same response payload — a payload
the server actually sent (a 2xx response consumed from the call's
network oracle); and no client operation (`request`, `register`, `login`,
`logout`, `registerDevice`, `getDeviceInfo`) ever replaces one of the
pair without the other — the post-state pair is either untouched, taken
wholesale from one actually-received 2xx payload, or nulled together;
`setTokens` sets both fields in one step from its two arguments. -/
theorem claim_C9_tokens_replaced_together :
    (∀ (st : ClientState) (u : JsonValue) (net : List FetchResult) (d : JsonValue),
      (register st u net).result = .ok d →
      ((register st u net).state.token = d.get? "token" ∧
       (register st u net).state.refreshToken = d.get? "refresh_token") ∧
      (∃ status body, FetchResult.ok status body ∈ net ∧ okStatus status = true ∧
        d = unwrapData body)) ∧
    (∀ (st : ClientState) (em pw : String) (net : List FetchResult) (d : JsonValue),
      (login st em pw net).result = .ok d →
      ((login st em pw net).state.token = d.get? "token" ∧
       (login st em pw net).state.refreshToken = d.get? "refresh_token") ∧
      (∃ status body, FetchResult.ok status body ∈ net ∧ okStatus status = true ∧
        d = unwrapData body)) ∧
    (∀ (st : ClientState) (net : List FetchResult) (d : JsonValue),
      (refreshAccessToken st net).result = .ok d →
      ((refreshAccessToken st net).state.token = d.get? "token" ∧
       (refreshAccessToken st net).state.refreshToken = d.get? "refresh_token") ∧
      (∃ status body tail, net = FetchResult.ok status body :: tail ∧
        okStatus status = true ∧ d = unwrapData body)) ∧
    (∀ (st : ClientState) (ep : String) (opts : RequestOptions)
       (net : List FetchResult), pairCoupled st (request st ep opts net).state net) ∧
    (∀ (st : ClientState) (u : JsonValue) (net : List FetchResult),
      pairCoupled st (register st u net).state net) ∧
    (∀ (st : ClientState) (em pw : String) (net : List FetchResult),
      pairCoupled st (login st em pw net).state net) ∧
    (∀ (st : ClientState) (net : List FetchResult),
      pairCoupled st (logout st net).state net) ∧
    (∀ (st : ClientState) (u : JsonValue) (net : List FetchResult),
      pairCoupled st (registerDevice st u net).state net) ∧
    (∀ (st : ClientState) (net : List FetchResult),
      pairCoupled st (getDeviceInfo st net).state net) ∧
    (∀ (st : ClientState) (t r : Option JsonValue),
      (setTokens st t r).token = t ∧ (setTokens st t r).refreshToken = r) := by
  refine ⟨?_, ?_, ?_, request_pairCoupled, ?_, ?_, ?_, ?_, ?_,
    fun st t r => ⟨rfl, rfl⟩⟩
  · intro st u net d
    unfold register
    dsimp only
    rcases hm : (request st "/auth/register"
        { method := some "POST", body := some u, auth := false } net).result with e | dv
    · intro h
      rw [hm] at h
      exact absurd h (by simp)
    · intro h
      obtain rfl : dv = d := by simpa using h
      exact ⟨⟨rfl, rfl⟩, request_ok_source st _ _ net dv hm⟩
  · intro st em pw net d
    unfold login
    dsimp only
    rcases hm : (request st "/auth/login"
        { method := some "POST",
          body := some (.obj [("email", .str em), ("password", .str pw)]),
          auth := false } net).result with e | dv
    · intro h
      rw [hm] at h
      exact absurd h (by simp)
    · intro h
      obtain rfl : dv = d := by simpa using h
      exact ⟨⟨rfl, rfl⟩, request_ok_source st _ _ net dv hm⟩
  · intro st net d h
    refine ⟨?_, ?_⟩
    · rw [refreshAccessToken_state_ok st net d h]
      exact ⟨rfl, rfl⟩
    · obtain ⟨s, b, tail, hnet, hok, hd, _⟩ := refreshAccessToken_ok_shape st net d h
      exact ⟨s, b, tail, hnet, hok, hd⟩
  · intro st u net
    unfold register
    dsimp only
    rcases hm : (request st "/auth/register"
        { method := some "POST", body := some u, auth := false } net).result with e | dv
    · exact request_pairCoupled st _ _ net
    · obtain ⟨s, b, hmem, hoks, hd⟩ := request_ok_source st _ _ net dv hm
      subst hd
      exact Or.inr (Or.inl ⟨s, b, hmem, hoks, rfl, rfl⟩)
  · intro st em pw net
    unfold login
    dsimp only
    rcases hm : (request st "/auth/login"
        { method := some "POST",
          body := some (.obj [("email", .str em), ("password", .str pw)]),
          auth := false } net).result with e | dv
    · exact request_pairCoupled st _ _ net
    · obtain ⟨s, b, hmem, hoks, hd⟩ := request_ok_source st _ _ net dv hm
      subst hd
      exact Or.inr (Or.inl ⟨s, b, hmem, hoks, rfl, rfl⟩)
  · intro st net
    unfold logout
    dsimp only
    rcases hm : (request st "/auth/logout" { method := some "POST" } net).result with e | v
    · exact request_pairCoupled st _ _ net
    · exact Or.inr (Or.inr ⟨rfl, rfl⟩)
  · intro st u net
    unfold registerDevice
    dsimp only
    rcases hm : (request st "/devices/register"
        { method := some "POST", body := some u } net).result with e | dv
    · exact request_pairCoupled st _ _ net
    · dsimp only
      rcases hdt : truthyOpt (dv.get? "device_token")
      · rw [if_neg Bool.false_ne_true]
        exact request_pairCoupled st _ _ net
      · rw [if_pos rfl]
        rcases request_pairCoupled st "/devices/register"
            { method := some "POST", body := some u } net
          with h | ⟨s, b, hmem, hoks, h1, h2⟩ | ⟨h1, h2⟩
        · exact Or.inl h
        · exact Or.inr (Or.inl ⟨s, b, hmem, hoks, h1, h2⟩)
        · exact Or.inr (Or.inr ⟨h1, h2⟩)
  · intro st net
    unfold getDeviceInfo
    dsimp only
    rcases hm : (request st "/device/info" { useDeviceToken := true } net).result with e | v
    · dsimp only
      rcases h4 : (e.statusOf == some 401)
      · rw [if_neg Bool.false_ne_true]
        exact request_pairCoupled st _ _ net
      · rw [if_pos rfl]
        exact Or.inr (Or.inr ⟨rfl, rfl⟩)
    · exact request_pairCoupled st _ _ net

/-- Witness for C9: a successful `register` against a concrete 200
response stores `T2`/`R2` — both taken from the one payload. -/
theorem claim_C9_tokens_replaced_together_witness :
    (register exClient (.obj [("email", .str "a@b.c")])
        [.ok 200 (.obj [("data", exRefreshBody)])]).result = .ok exRefreshBody ∧
    (register exClient (.obj [("email", .str "a@b.c")])
        [.ok 200 (.obj [("data", exRefreshBody)])]).state.token
      = some (.str "T2") ∧
    (register exClient (.obj [("email", .str "a@b.c")])
        [.ok 200 (.obj [("data", exRefreshBody)])]).state.refreshToken
      = some (.str "R2") := by
  have hres : (register exClient (.obj [("email", .str "a@b.c")])
      [.ok 200 (.obj [("data", exRefreshBody)])]).result = .ok exRefreshBody := by
    simp +decide [register, request, okStatus, unwrapData, JsonValue.get?,
      List.lookup, exRefreshBody]
  have h := claim_C9_tokens_replaced_together.1 exClient (.obj [("email", .str "a@b.c")])
    [.ok 200 (.obj [("data", exRefreshBody)])] exRefreshBody hres
  refine ⟨hres, ?_, ?_⟩
  · rw [h.1.1]
    simp +decide [exRefreshBody, JsonValue.get?, List.lookup]
  · rw [h.1.2]
    simp +decide [exRefreshBody, JsonValue.get?, List.lookup]

/-! ## Claim C10: logout frame and error atomicity -/

/-- **C10** (counterexample): `logout` while holding a refresh token, with
the server answering 401 to the logout, 200 to the ensuing refresh, and
401 to the retried logout: the call throws, yet the held access token has
changed from `T1` to `T2` — the state is *not* left exactly as it was on
error, because the logout's own 401 triggers the refresh path. -/
theorem claim_C10_logout_counterexample :
    (logout exClient
        [.ok 401 (.obj []), .ok 200 exRefreshBody, .ok 401 (.obj [])]).result
      = .error (.api (.str "API request failed") 401 (.obj [])) ∧
    (logout exClient
        [.ok 401 (.obj []), .ok 200 exRefreshBody, .ok 401 (.obj [])]).state.token
      = some (.str "T2") ∧
    exClient.token = some (.str "T1") := by
  refine ⟨?_, ?_, rfl⟩ <;>
    simp +decide [logout, request, refreshAccessToken, refreshNetContinuation,
      configHeaders, builtHeaders, okStatus, unwrapData, JsonValue.get?,
      List.lookup, truthyOpt, jsonTruthy, setHeader, errMessage, exClient,
      exRefreshBody, ApiError.statusOf, refreshFetchEvent, jsonToStr]

/-- **C10** (amended): on a successful `logout` the access and refresh
tokens are nulled and every other client field (device token, callbacks,
storage flags, baseURL, …) is unchanged; if the logout call throws, all
non-token fields are likewise unchanged and the token pair is never left
mixed — it is either exactly the pre-call pair, or, when the logout's own
401 was followed by a successful refresh (a 2xx answer to the refresh
call, the second response consumed from this call's oracle) before the
retry failed, exactly the `token`/`refresh_token` pair of that one
refresh response's unwrapped body. -/
theorem claim_C10_logout_amended (st : ClientState) (net : List FetchResult) :
    (∀ v : JsonValue, (logout st net).result = .ok v →
      (logout st net).state.token = none ∧
      (logout st net).state.refreshToken = none ∧
      sameFrame (logout st net).state st) ∧
    (∀ e : ApiError, (logout st net).result = .error e →
      sameFrame (logout st net).state st ∧
      (((logout st net).state.token = st.token ∧
        (logout st net).state.refreshToken = st.refreshToken) ∨
       (∃ b status body tail,
         net = FetchResult.ok 401 b :: FetchResult.ok status body :: tail ∧
         okStatus status = true ∧
         (logout st net).state.token = (unwrapData body).get? "token" ∧
         (logout st net).state.refreshToken
           = (unwrapData body).get? "refresh_token"))) := by
  unfold logout
  dsimp only
  rcases hm : (request st "/auth/logout" { method := some "POST" } net).result with e | v
  · constructor
    · intro v h
      rw [hm] at h
      exact absurd h (by simp)
    · intro e2 h
      exact ⟨request_frame st _ _ net, request_pair st _ _ net⟩
  · constructor
    · intro v2 h
      refine ⟨rfl, rfl, ?_⟩
      have hf := request_frame st "/auth/logout" { method := some "POST" } net
      exact hf
    · intro e h
      dsimp only at h
      exact absurd h (by simp)

/-- Witness for the amended C10: a logout answered 200 nulls both tokens
and leaves the device token and window flag as they were. -/
theorem claim_C10_logout_amended_witness :
    (logout exClient [.ok 200 (.obj [])]).result = .ok (.obj []) ∧
    (logout exClient [.ok 200 (.obj [])]).state.token = none ∧
    (logout exClient [.ok 200 (.obj [])]).state.refreshToken = none ∧
    sameFrame (logout exClient [.ok 200 (.obj [])]).state exClient := by
  have hres : (logout exClient [.ok 200 (.obj [])]).result = .ok (.obj []) := by
    simp +decide [logout, request, okStatus, unwrapData, JsonValue.get?, List.lookup]
  have h := (claim_C10_logout_amended exClient [.ok 200 (.obj [])]).1 (.obj []) hres
  exact ⟨hres, h.1, h.2.1, h.2.2⟩

end WelcomeSign
